import Mathlib

/-!
Shallow embedding of the xslocobot joystick teleoperation node
(src/interbotix_ros_xslocobots/examples/interbotix_xslocobot_joy/scripts/xslocobot_robot.py).

Python floats are modelled as exact rationals (every constant in the source --
0.06, 0.04, 0.01, 0.125, 0.5, 25, 10, 40, 0.3, 1 -- is handled symbolically by
the claims, and the pressure/rate constants are exactly representable dyadics).
Numpy 4x4 arrays become `Matrix (Fin 4) (Fin 4) ℚ`.  The external
angle-manipulation helpers (cos/sin, Euler conversions) are abstracted as an
operation record `AngleOps`; the claims that need them only use the Pythagorean
identity, stated as a hypothesis.
-/

namespace XSLocobot

/-- Homogeneous 4x4 transform over the rationals, modelling a numpy 4x4 array. -/
abbrev Mat4 := Matrix (Fin 4) (Fin 4) ℚ

/-- Rotation 3x3 block. -/
abbrev Mat3 := Matrix (Fin 3) (Fin 3) ℚ

instance : DecidableEq Mat4 := fun A B => decidable_of_iff _ Matrix.ext_iff

instance : DecidableEq Mat3 := fun A B => decidable_of_iff _ Matrix.ext_iff

/-- Modelled from the spec: a discrete command field holding a none sentinel or an
increment / decrement code.  The concrete integer sentinels live in the external
LocobotJoy message definition; per the spec they are distinct nonzero values and
the none sentinel is zero, so a field is active exactly when it differs from
none. -/
inductive Code
  | none
  | inc
  | dec
deriving DecidableEq

/-- Modelled from the spec: speed_toggle_cmd sentinels {none, coarse, fine}. -/
inductive ToggleCode
  | none
  | coarse
  | fine
deriving DecidableEq

/-- Modelled from the spec: gripper_cmd sentinels {none, release, grasp}. -/
inductive GripperCode
  | none
  | release
  | grasp
deriving DecidableEq

/-- Modelled from the spec: pan_cmd sentinels {none, home, ccw, cw}. -/
inductive PanCode
  | none
  | home
  | ccw
  | cw
deriving DecidableEq

/-- Modelled from the spec: tilt_cmd sentinels {none, home, up, down}. -/
inductive TiltCode
  | none
  | home
  | up
  | down
deriving DecidableEq

/-- Modelled from the spec: pose_cmd sentinels {none, home, sleep}. -/
inductive PoseCode
  | none
  | home
  | sleep
deriving DecidableEq

/-- Modelled from the spec: waist_cmd sentinels {none, ccw, cw}. -/
inductive WaistCode
  | none
  | ccw
  | cw
deriving DecidableEq

/-- Modelled from the spec: the LocobotJoy message consumed by the node.
base_reset_odom_cmd has sentinels {none, reset}, modelled as a Bool.
For ee_roll_cmd, inc is the CCW code and dec the CW code; for ee_pitch_cmd,
inc is the DOWN code (which adds the step in the source) and dec the UP code. -/
structure LocobotJoy where
  speed_cmd : Code
  speed_toggle_cmd : ToggleCode
  base_reset_odom_cmd : Bool
  gripper_cmd : GripperCode
  gripper_pwm_cmd : Code
  pan_cmd : PanCode
  tilt_cmd : TiltCode
  pose_cmd : PoseCode
  waist_cmd : WaistCode
  base_x_cmd : ℚ
  base_theta_cmd : ℚ
  ee_x_cmd : Code
  ee_y_cmd : Code
  ee_z_cmd : Code
  ee_roll_cmd : Code
  ee_pitch_cmd : Code
deriving DecidableEq

/-- LocobotJoy() default construction: every field at its none/zero sentinel. -/
def zeroMsg : LocobotJoy :=
  { speed_cmd := .none, speed_toggle_cmd := .none, base_reset_odom_cmd := false,
    gripper_cmd := .none, gripper_pwm_cmd := .none, pan_cmd := .none, tilt_cmd := .none,
    pose_cmd := .none, waist_cmd := .none, base_x_cmd := 0, base_theta_cmd := 0,
    ee_x_cmd := .none, ee_y_cmd := .none, ee_z_cmd := .none, ee_roll_cmd := .none,
    ee_pitch_cmd := .none }

/-- Roll / pitch / yaw triple, as returned by rotation_matrix_to_euler_angles. -/
structure RPY where
  roll : ℚ
  pitch : ℚ
  yaw : ℚ
deriving DecidableEq

/-- Modelled from the spec: the external angle_manipulation helpers consumed by
the node (cosine, sine, rotation-to-Euler extraction, Euler-to-rotation
rebuild).  They are transcendental in the source; claims that depend on them
only use the Pythagorean identity, supplied via `AngleOps.Pythag`. -/
structure AngleOps where
  cos : ℚ → ℚ
  sin : ℚ → ℚ
  rotToEuler : Mat3 → RPY
  eulerToRot : RPY → Mat3

/-- Pythagorean identity for the modelled cosine and sine. -/
def AngleOps.Pythag (ops : AngleOps) : Prop :=
  ∀ θ : ℚ, ops.cos θ ^ 2 + ops.sin θ ^ 2 = 1

/-- Top-left 3x3 rotation block of a homogeneous transform (T[:3, :3]). -/
def rotOf (T : Mat4) : Mat3 :=
  Matrix.of fun i j => T i.castSucc j.castSucc

/-- Modelled from the spec: ang.trans_inv, the rigid-transform inverse
[[R^T, -R^T p], [0 0 0 1]] of a homogeneous transform [[R, p], [0 0 0 1]]. -/
def trans_inv (T : Mat4) : Mat4 :=
  Matrix.of fun i j =>
    if (i : ℕ) < 3 then
      if (j : ℕ) < 3 then T j i
      else -(T 0 i * T 0 3 + T 1 i * T 1 3 + T 2 i * T 2 3)
    else if (j : ℕ) = 3 then 1 else 0

/-- Single-entry assignment T[r, c] = v on a numpy array. -/
def setEntry (T : Mat4) (r c : Fin 4) (v : ℚ) : Mat4 :=
  Matrix.of fun i j => if i = r ∧ j = c then v else T i j

/-- Block assignment T[:2, :2] = [[c, -s], [s, c]], the composed effect of
ang.yaw_to_rotation_matrix followed by the in-place slice write in
update_T_yb. -/
def setYawBlock (T : Mat4) (c s : ℚ) : Mat4 :=
  Matrix.of fun i j =>
    if i = 0 ∧ j = 0 then c
    else if i = 0 ∧ j = 1 then -s
    else if i = 1 ∧ j = 0 then s
    else if i = 1 ∧ j = 1 then c
    else T i j

/-- Block assignment T[:3, :3] = R on a homogeneous transform. -/
def setRotBlock (T : Mat4) (R : Mat3) : Mat4 :=
  Matrix.of fun i j =>
    if hi : (i : ℕ) < 3 then
      if hj : (j : ℕ) < 3 then R ⟨i, hi⟩ ⟨j, hj⟩ else T i j
    else T i j

/-- Pure-yaw homogeneous transform with zero translation: the shape
[[c, -s, 0, 0], [s, c, 0, 0], [0, 0, 1, 0], [0, 0, 0, 1]], written entrywise
(the planar yaw block in the top-left corner, identity elsewhere). -/
def yawForm (c s : ℚ) : Mat4 :=
  Matrix.of fun i j =>
    if i = 0 ∧ j = 0 then c
    else if i = 0 ∧ j = 1 then -s
    else if i = 1 ∧ j = 0 then s
    else if i = 1 ∧ j = 1 then c
    else if i = j then 1 else 0

/-- A transform is a pure yaw rotation with zero translation. -/
def PureYaw (T : Mat4) : Prop :=
  ∃ c s : ℚ, c ^ 2 + s ^ 2 = 1 ∧ T = yawForm c s

/-- XSLocobotRobot.update_T_yb: reads the arm's commanded end-effector pose
T_sb, extracts the yaw of its rotation, overwrites the top-left 2x2 block of
T_sy with the planar yaw rotation, and recomputes
T_yb = trans_inv(T_sy) . T_sb.  Returns the new (T_sy, T_yb) pair. -/
def update_T_yb (ops : AngleOps) (T_sy T_sb : Mat4) : Mat4 × Mat4 :=
  let z := (ops.rotToEuler (rotOf T_sb)).yaw
  let T_sy2 := setYawBlock T_sy (ops.cos z) (ops.sin z)
  (T_sy2, trans_inv T_sy2 * T_sb)

/-- Class-level constants of XSLocobotRobot. -/
def waist_step : ℚ := 6 / 100

/-- Rotation increment for roll/pitch edits. -/
def rotate_step : ℚ := 4 / 100

/-- Translation increment for Cartesian edits. -/
def translate_step : ℚ := 1 / 100

/-- Gripper pressure increment. -/
def gripper_pressure_step : ℚ := 1 / 8

/-- Construction-time configuration: arm presence, joint count, base flag and
the waist joint limits read once from the arm facade. -/
structure Config where
  armPresent : Bool
  numJoints : ℕ
  useBase : Bool
  waist_ll : ℚ
  waist_ul : ℚ

/-- Mutable controller state: loop rate, the two remembered profile rates,
gripper pressure, the buffered joystick snapshot, and the frame pair. -/
structure RobotState where
  current_loop_rate : ℚ
  loop_rate_coarse : ℚ
  loop_rate_fine : ℚ
  current_gripper_pressure : ℚ
  joy_msg : LocobotJoy
  T_sy : Mat4
  T_yb : Mat4

/-- Externally visible actuator requests issued by the node. -/
inductive Event
  | camHome
  | camMove (pan tilt : ℚ)
  | baseVelocity (x yaw : ℚ)
  | resetOdom
  | gripperRelease
  | gripperGrasp
  | setPressure (p : ℚ)
  | armHomePose
  | armSleepPose
  | setWaist (pos : ℚ)
  | ikRequest (target : Mat4)

/-- Per-tick oracle inputs read from the actuator facades: current camera
joint commands, current commanded waist angle, the actuator's accept/reject
answer for a single-joint waist target, the inverse-kinematics success flag,
and the authoritative end-effector pose T_sb that get_ee_pose_command returns
when update_T_yb runs after the pose-preset and waist branches. -/
structure TickInputs where
  camPan : ℚ
  camTilt : ℚ
  waistPos : ℚ
  waistSetOk : ℚ → Bool
  ikOk : Bool
  T_sb_after_pose : Mat4
  T_sb_after_waist : Mat4

/-- Speed_cmd handling in joy_control_cb: strict guards at 40 and 10 with a
step of exactly 1. -/
def speedPhase (s : RobotState) (msg : LocobotJoy) : RobotState :=
  if msg.speed_cmd = Code.inc ∧ s.current_loop_rate < 40 then
    { s with current_loop_rate := s.current_loop_rate + 1 }
  else if msg.speed_cmd = Code.dec ∧ s.current_loop_rate > 10 then
    { s with current_loop_rate := s.current_loop_rate - 1 }
  else s

/-- Speed_toggle_cmd handling in joy_control_cb: switching to coarse stores the
current rate into the fine slot and loads the coarse slot; fine is symmetric. -/
def togglePhase (s : RobotState) (msg : LocobotJoy) : RobotState :=
  match msg.speed_toggle_cmd with
  | ToggleCode.coarse =>
    { s with loop_rate_fine := s.current_loop_rate,
             current_loop_rate := s.loop_rate_coarse }
  | ToggleCode.fine =>
    { s with loop_rate_coarse := s.current_loop_rate,
             current_loop_rate := s.loop_rate_fine }
  | ToggleCode.none => s

/-- Base_reset_odom_cmd handling in joy_control_cb. -/
def odomEvents (cfg : Config) (msg : LocobotJoy) : List Event :=
  if msg.base_reset_odom_cmd = true ∧ cfg.useBase = true then [Event.resetOdom] else []

/-- Gripper_cmd handling in joy_control_cb. -/
def gripperEvents (msg : LocobotJoy) : List Event :=
  match msg.gripper_cmd with
  | GripperCode.release => [Event.gripperRelease]
  | GripperCode.grasp => [Event.gripperGrasp]
  | GripperCode.none => []

/-- Gripper_pwm_cmd handling in joy_control_cb: strict guards at 1 and 0 with a
step of exactly 1/8; each change is pushed to the gripper facade. -/
def pwmPhase (s : RobotState) (msg : LocobotJoy) : RobotState × List Event :=
  if msg.gripper_pwm_cmd = Code.inc ∧ s.current_gripper_pressure < 1 then
    ({ s with current_gripper_pressure := s.current_gripper_pressure + gripper_pressure_step },
      [Event.setPressure (s.current_gripper_pressure + gripper_pressure_step)])
  else if msg.gripper_pwm_cmd = Code.dec ∧ s.current_gripper_pressure > 0 then
    ({ s with current_gripper_pressure := s.current_gripper_pressure - gripper_pressure_step },
      [Event.setPressure (s.current_gripper_pressure - gripper_pressure_step)])
  else (s, [])

/-- XSLocobotRobot.joy_control_cb: stores the snapshot in the command buffer,
then performs speed adjustment, profile toggle, odometry reset forwarding and
(when an arm is present) gripper release/grasp dispatch and pressure stepping,
all on the asynchronous command-arrival path. -/
def joy_control_cb (cfg : Config) (s : RobotState) (msg : LocobotJoy) :
    RobotState × List Event :=
  let s1 := togglePhase (speedPhase { s with joy_msg := msg } msg) msg
  if cfg.armPresent = false then (s1, odomEvents cfg msg)
  else
    let pp := pwmPhase s1 msg
    (pp.1, odomEvents cfg msg ++ gripperEvents msg ++ pp.2)

/-- Sequential application of joy_control_cb over a list of incoming messages. -/
def runMsgs (cfg : Config) (s : RobotState) (msgs : List LocobotJoy) : RobotState :=
  msgs.foldl (fun t m => (joy_control_cb cfg t m).1) s

/-- Camera pan/tilt dispatch at the top of the controller tick. -/
def camEvents (msg : LocobotJoy) (inp : TickInputs) : List Event :=
  if msg.pan_cmd = PanCode.home ∧ msg.tilt_cmd = TiltCode.home then [Event.camHome]
  else if msg.pan_cmd ≠ PanCode.none ∨ msg.tilt_cmd ≠ TiltCode.none then
    let pan :=
      if msg.pan_cmd = PanCode.ccw then inp.camPan + waist_step
      else if msg.pan_cmd = PanCode.cw then inp.camPan - waist_step
      else inp.camPan
    let tilt :=
      if msg.tilt_cmd = TiltCode.up then inp.camTilt + waist_step
      else if msg.tilt_cmd = TiltCode.down then inp.camTilt - waist_step
      else inp.camTilt
    [Event.camMove pan tilt]
  else []

/-- Mobile-base velocity dispatch: sampled every tick when base control is on. -/
def baseEvents (cfg : Config) (msg : LocobotJoy) : List Event :=
  if cfg.useBase = true then [Event.baseVelocity msg.base_x_cmd msg.base_theta_cmd]
  else []

/-- Pose-preset dispatch events. -/
def poseEvents (msg : LocobotJoy) : List Event :=
  match msg.pose_cmd with
  | PoseCode.home => [Event.armHomePose]
  | PoseCode.sleep => [Event.armSleepPose]
  | PoseCode.none => []

/-- Waist single-joint dispatch: the primary move targets the current angle
plus or minus waist_step; when the actuator rejects it and the current angle
is not already at the relevant limit, a fallback commanding exactly the limit
is issued. -/
def waistEvents (cfg : Config) (msg : LocobotJoy) (inp : TickInputs) : List Event :=
  match msg.waist_cmd with
  | WaistCode.none => []
  | WaistCode.ccw =>
    let target := inp.waistPos + waist_step
    if inp.waistSetOk target = false ∧ inp.waistPos ≠ cfg.waist_ul then
      [Event.setWaist target, Event.setWaist cfg.waist_ul]
    else [Event.setWaist target]
  | WaistCode.cw =>
    let target := inp.waistPos - waist_step
    if inp.waistSetOk target = false ∧ inp.waistPos ≠ cfg.waist_ll then
      [Event.setWaist target, Event.setWaist cfg.waist_ll]
    else [Event.setWaist target]

/-- State update performed by a call to self.update_T_yb(). -/
def applyUpdateTyb (ops : AngleOps) (s : RobotState) (T_sb : Mat4) : RobotState :=
  { s with T_sy := (update_T_yb ops s.T_sy T_sb).1,
           T_yb := (update_T_yb ops s.T_sy T_sb).2 }

/-- State after the pose-preset and waist branches of the tick (each branch
calls update_T_yb when its command field is active). -/
def armTickState (ops : AngleOps) (s : RobotState) (inp : TickInputs) : RobotState :=
  let s1 :=
    if s.joy_msg.pose_cmd ≠ PoseCode.none then applyUpdateTyb ops s inp.T_sb_after_pose
    else s
  if s.joy_msg.waist_cmd ≠ WaistCode.none then applyUpdateTyb ops s1 inp.T_sb_after_waist
  else s1

/-- Position_changed accumulator of the tick: ee_x_cmd + ee_z_cmd, plus
ee_y_cmd for arms with at least six joints; nonzero exactly when one of the
contributing fields is active. -/
def positionChanged (cfg : Config) (msg : LocobotJoy) : Prop :=
  msg.ee_x_cmd ≠ Code.none ∨ msg.ee_z_cmd ≠ Code.none ∨
    (6 ≤ cfg.numJoints ∧ msg.ee_y_cmd ≠ Code.none)

instance (cfg : Config) (msg : LocobotJoy) : Decidable (positionChanged cfg msg) := by
  unfold positionChanged; infer_instance

/-- Orientation_changed accumulator of the tick: ee_roll_cmd + ee_pitch_cmd. -/
def orientationChanged (msg : LocobotJoy) : Prop :=
  msg.ee_roll_cmd ≠ Code.none ∨ msg.ee_pitch_cmd ≠ Code.none

instance (msg : LocobotJoy) : Decidable (orientationChanged msg) := by
  unfold orientationChanged; infer_instance

/-- Translation edits applied to the working copy of T_yb: x and z move by
exactly translate_step; the lateral y edit additionally requires at least six
joints and a forward offset strictly greater than 0.3 (read after the x edit,
as in the source). -/
def applyPositionEdits (cfg : Config) (msg : LocobotJoy) (T : Mat4) : Mat4 :=
  let T1 :=
    if msg.ee_x_cmd = Code.inc then setEntry T 0 3 (T 0 3 + translate_step)
    else if msg.ee_x_cmd = Code.dec then setEntry T 0 3 (T 0 3 - translate_step)
    else T
  let T2 :=
    if msg.ee_y_cmd = Code.inc ∧ 6 ≤ cfg.numJoints ∧ T1 0 3 > 3 / 10 then
      setEntry T1 1 3 (T1 1 3 + translate_step)
    else if msg.ee_y_cmd = Code.dec ∧ 6 ≤ cfg.numJoints ∧ T1 0 3 > 3 / 10 then
      setEntry T1 1 3 (T1 1 3 - translate_step)
    else T1
  if msg.ee_z_cmd = Code.inc then setEntry T2 2 3 (T2 2 3 + translate_step)
  else if msg.ee_z_cmd = Code.dec then setEntry T2 2 3 (T2 2 3 - translate_step)
  else T2

/-- Rotation edits applied to the working copy: extract Euler angles from the
rotation block, adjust roll/pitch by rotate_step, rebuild the rotation. -/
def applyOrientationEdits (ops : AngleOps) (msg : LocobotJoy) (T : Mat4) : Mat4 :=
  let rpy := ops.rotToEuler (rotOf T)
  let r1 :=
    if msg.ee_roll_cmd = Code.inc then rpy.roll + rotate_step
    else if msg.ee_roll_cmd = Code.dec then rpy.roll - rotate_step
    else rpy.roll
  let p1 :=
    if msg.ee_pitch_cmd = Code.inc then rpy.pitch + rotate_step
    else if msg.ee_pitch_cmd = Code.dec then rpy.pitch - rotate_step
    else rpy.pitch
  setRotBlock T (ops.eulerToRot ⟨r1, p1, rpy.yaw⟩)

/-- Working copy of T_yb built by the Cartesian-edit section of the tick. -/
def workingTyb (cfg : Config) (ops : AngleOps) (msg : LocobotJoy) (T : Mat4) : Mat4 :=
  let T0 := if positionChanged cfg msg then applyPositionEdits cfg msg T else T
  if orientationChanged msg then applyOrientationEdits ops msg T0 else T0

/-- Cartesian incremental-edit section of the tick: when any edit is active,
build the working copy, issue exactly one inverse-kinematics request for
T_sy . working, and commit the working copy into T_yb only on success. -/
def editPhase (cfg : Config) (ops : AngleOps) (s : RobotState) (ikOk : Bool) :
    RobotState × List Event :=
  if positionChanged cfg s.joy_msg ∨ orientationChanged s.joy_msg then
    let Tw := workingTyb cfg ops s.joy_msg s.T_yb
    (if ikOk then { s with T_yb := Tw } else s,
      [Event.ikRequest (s.T_sy * Tw)])
  else (s, [])

/-- XSLocobotRobot.controller: one control-loop tick.  Reads the buffered
snapshot, dispatches camera and base, returns early when no arm is present,
then runs the pose-preset, waist and Cartesian-edit sections in order. -/
def controller (cfg : Config) (ops : AngleOps) (s : RobotState) (inp : TickInputs) :
    RobotState × List Event :=
  let msg := s.joy_msg
  let e0 := camEvents msg inp ++ baseEvents cfg msg
  if cfg.armPresent = false then (s, e0)
  else
    let s2 := armTickState ops s inp
    let ep := editPhase cfg ops s2 inp.ikOk
    (ep.1, e0 ++ poseEvents msg ++ waistEvents cfg msg inp ++ ep.2)

/-- XSLocobotRobot.__init__: rates seeded at 25/25/25, pressure at 1/2, the
buffer at the default message, T_sy and T_yb at the 4x4 identity; when an arm
is present update_T_yb runs once at startup against the arm's pose T_sb0. -/
def initState (ops : AngleOps) (cfg : Config) (T_sb0 : Mat4) : RobotState :=
  let base : RobotState :=
    { current_loop_rate := 25, loop_rate_coarse := 25, loop_rate_fine := 25,
      current_gripper_pressure := 1 / 2, joy_msg := zeroMsg,
      T_sy := 1, T_yb := 1 }
  if cfg.armPresent = true then
    { base with T_sy := (update_T_yb ops (1 : Mat4) T_sb0).1,
                T_yb := (update_T_yb ops (1 : Mat4) T_sb0).2 }
  else base

/-- One asynchronous transition of the node: either the subscription callback
fires with an arriving message, or the control loop runs one tick. -/
inductive NodeStep (cfg : Config) (ops : AngleOps) : RobotState → RobotState → Prop
  | cb (s : RobotState) (msg : LocobotJoy) : NodeStep cfg ops s (joy_control_cb cfg s msg).1
  | tick (s : RobotState) (inp : TickInputs) : NodeStep cfg ops s (controller cfg ops s inp).1

/-- States reachable from startup by any interleaving of message arrivals and
control-loop ticks. -/
def Reachable (cfg : Config) (ops : AngleOps) (T_sb0 : Mat4) (s : RobotState) : Prop :=
  Relation.ReflTransGen (NodeStep cfg ops) (initState ops cfg T_sb0) s

/-- Inverse-kinematics targets among a list of issued events. -/
def ikTargets (es : List Event) : List Mat4 :=
  es.filterMap fun e => match e with
    | Event.ikRequest t => some t
    | _ => none

/-- Waist single-joint targets among a list of issued events. -/
def waistTargets (es : List Event) : List ℚ :=
  es.filterMap fun e => match e with
    | Event.setWaist p => some p
    | _ => none

/-- Event kinds that the controller tick can issue (camera, base, arm pose,
waist, inverse kinematics); the four arrival-path kinds (odometry reset,
gripper release/grasp, pressure push) are excluded. -/
def tickEventKind : Event → Bool
  | Event.resetOdom => false
  | Event.gripperRelease => false
  | Event.gripperGrasp => false
  | Event.setPressure _ => false
  | _ => true

/-- A rate value is an integer between 10 and 40. -/
def RateOk (q : ℚ) : Prop :=
  ∃ n : ℕ, 10 ≤ n ∧ n ≤ 40 ∧ q = (n : ℚ)

/-- All three rate slots are integers between 10 and 40. -/
def RatesOk (s : RobotState) : Prop :=
  RateOk s.current_loop_rate ∧ RateOk s.loop_rate_coarse ∧ RateOk s.loop_rate_fine

/-- A pressure value is a multiple of 1/8 between 0 and 1. -/
def PressureOk (q : ℚ) : Prop :=
  ∃ k : ℕ, k ≤ 8 ∧ q = (k : ℚ) / 8

/-- Concrete angle operations used to instantiate witness states: cosine
constantly 1 and sine constantly 0 (satisfying the Pythagorean identity). -/
def opsId : AngleOps :=
  { cos := fun _ => 1, sin := fun _ => 0,
    rotToEuler := fun _ => ⟨0, 0, 0⟩, eulerToRot := fun _ => 1 }

/-- Concrete configuration of a six-joint arm with base control enabled. -/
def cfgArm : Config :=
  { armPresent := true, numJoints := 6, useBase := true,
    waist_ll := -(9 / 5), waist_ul := 9 / 5 }

/-- Concrete configuration of a five-joint arm. -/
def cfgArm5 : Config :=
  { armPresent := true, numJoints := 5, useBase := false,
    waist_ll := -(9 / 5), waist_ul := 9 / 5 }

/-- Message carrying only a speed increment. -/
def speedIncMsg : LocobotJoy := { zeroMsg with speed_cmd := Code.inc }

/-- Message carrying only a coarse-profile toggle. -/
def coarseMsg : LocobotJoy := { zeroMsg with speed_toggle_cmd := ToggleCode.coarse }

/-- Message carrying only a fine-profile toggle. -/
def fineMsg : LocobotJoy := { zeroMsg with speed_toggle_cmd := ToggleCode.fine }

/-- Message carrying only a gripper pressure increment. -/
def pwmIncMsg : LocobotJoy := { zeroMsg with gripper_pwm_cmd := Code.inc }

/-- Message carrying only an ee_x increment edit. -/
def eeXIncMsg : LocobotJoy := { zeroMsg with ee_x_cmd := Code.inc }

/-- Message carrying only an ee_y increment edit. -/
def eeYIncMsg : LocobotJoy := { zeroMsg with ee_y_cmd := Code.inc }

/-- Message carrying only a counterclockwise waist command. -/
def waistCcwMsg : LocobotJoy := { zeroMsg with waist_cmd := WaistCode.ccw }

/-- Neutral tick inputs for witness states. -/
def inpZero : TickInputs :=
  { camPan := 0, camTilt := 0, waistPos := 0, waistSetOk := fun _ => true,
    ikOk := true, T_sb_after_pose := 1, T_sb_after_waist := 1 }

/-- Tick inputs with the waist at the upper limit and an actuator that rejects
every single-joint move. -/
def inpWaistReject : TickInputs :=
  { camPan := 0, camTilt := 0, waistPos := 9 / 5, waistSetOk := fun _ => false,
    ikOk := true, T_sb_after_pose := 1, T_sb_after_waist := 1 }

/-- Tick inputs with a failing inverse-kinematics solver. -/
def inpIkFail : TickInputs :=
  { camPan := 0, camTilt := 0, waistPos := 0, waistSetOk := fun _ => true,
    ikOk := false, T_sb_after_pose := 1, T_sb_after_waist := 1 }

/-- Tick inputs with the waist away from both limits and a rejecting actuator. -/
def inpWaistRejectMid : TickInputs :=
  { camPan := 0, camTilt := 0, waistPos := 0, waistSetOk := fun _ => false,
    ikOk := true, T_sb_after_pose := 1, T_sb_after_waist := 1 }

/-- Concrete state with loop rate 30 and both memory slots at 25. -/
def sRate30 : RobotState :=
  { current_loop_rate := 30, loop_rate_coarse := 25, loop_rate_fine := 25,
    current_gripper_pressure := 1 / 2, joy_msg := zeroMsg, T_sy := 1, T_yb := 1 }

/-- Concrete state with gripper pressure exactly 1. -/
def sPressFull : RobotState :=
  { current_loop_rate := 25, loop_rate_coarse := 25, loop_rate_fine := 25,
    current_gripper_pressure := 1, joy_msg := zeroMsg, T_sy := 1, T_yb := 1 }

/-- Concrete state with gripper pressure exactly 0. -/
def sPressEmpty : RobotState :=
  { current_loop_rate := 25, loop_rate_coarse := 25, loop_rate_fine := 25,
    current_gripper_pressure := 0, joy_msg := zeroMsg, T_sy := 1, T_yb := 1 }

/-- Concrete state whose buffered snapshot is a speed-increment command. -/
def sSpeedBuf : RobotState :=
  { current_loop_rate := 25, loop_rate_coarse := 25, loop_rate_fine := 25,
    current_gripper_pressure := 1 / 2, joy_msg := speedIncMsg, T_sy := 1, T_yb := 1 }

/-- Concrete state whose buffered snapshot is a ccw waist command. -/
def sWaistBuf : RobotState :=
  { current_loop_rate := 25, loop_rate_coarse := 25, loop_rate_fine := 25,
    current_gripper_pressure := 1 / 2, joy_msg := waistCcwMsg, T_sy := 1, T_yb := 1 }

/-- Concrete state whose buffered snapshot is an ee_y increment edit. -/
def sYBuf : RobotState :=
  { current_loop_rate := 25, loop_rate_coarse := 25, loop_rate_fine := 25,
    current_gripper_pressure := 1 / 2, joy_msg := eeYIncMsg, T_sy := 1, T_yb := 1 }

/-- Concrete state whose buffered snapshot is an ee_x increment edit. -/
def sXBuf : RobotState :=
  { current_loop_rate := 25, loop_rate_coarse := 25, loop_rate_fine := 25,
    current_gripper_pressure := 1 / 2, joy_msg := eeXIncMsg, T_sy := 1, T_yb := 1 }

lemma speedPhase_T_sy (s : RobotState) (msg : LocobotJoy) :
    (speedPhase s msg).T_sy = s.T_sy := by
  unfold speedPhase; split_ifs <;> rfl

lemma speedPhase_T_yb (s : RobotState) (msg : LocobotJoy) :
    (speedPhase s msg).T_yb = s.T_yb := by
  unfold speedPhase; split_ifs <;> rfl

lemma speedPhase_pressure (s : RobotState) (msg : LocobotJoy) :
    (speedPhase s msg).current_gripper_pressure = s.current_gripper_pressure := by
  unfold speedPhase; split_ifs <;> rfl

lemma togglePhase_T_sy (s : RobotState) (msg : LocobotJoy) :
    (togglePhase s msg).T_sy = s.T_sy := by
  cases h : msg.speed_toggle_cmd <;> simp [togglePhase, h]

lemma togglePhase_T_yb (s : RobotState) (msg : LocobotJoy) :
    (togglePhase s msg).T_yb = s.T_yb := by
  cases h : msg.speed_toggle_cmd <;> simp [togglePhase, h]

lemma togglePhase_pressure (s : RobotState) (msg : LocobotJoy) :
    (togglePhase s msg).current_gripper_pressure = s.current_gripper_pressure := by
  cases h : msg.speed_toggle_cmd <;> simp [togglePhase, h]

lemma pwmPhase_T_sy (s : RobotState) (msg : LocobotJoy) :
    (pwmPhase s msg).1.T_sy = s.T_sy := by
  unfold pwmPhase; split_ifs <;> rfl

lemma pwmPhase_T_yb (s : RobotState) (msg : LocobotJoy) :
    (pwmPhase s msg).1.T_yb = s.T_yb := by
  unfold pwmPhase; split_ifs <;> rfl

lemma pwmPhase_rate (s : RobotState) (msg : LocobotJoy) :
    (pwmPhase s msg).1.current_loop_rate = s.current_loop_rate := by
  unfold pwmPhase; split_ifs <;> rfl

lemma pwmPhase_coarse (s : RobotState) (msg : LocobotJoy) :
    (pwmPhase s msg).1.loop_rate_coarse = s.loop_rate_coarse := by
  unfold pwmPhase; split_ifs <;> rfl

lemma pwmPhase_fine (s : RobotState) (msg : LocobotJoy) :
    (pwmPhase s msg).1.loop_rate_fine = s.loop_rate_fine := by
  unfold pwmPhase; split_ifs <;> rfl

lemma cb_T_sy (cfg : Config) (s : RobotState) (msg : LocobotJoy) :
    (joy_control_cb cfg s msg).1.T_sy = s.T_sy := by
  unfold joy_control_cb
  split_ifs
  · rw [togglePhase_T_sy, speedPhase_T_sy]
  · rw [pwmPhase_T_sy, togglePhase_T_sy, speedPhase_T_sy]

lemma cb_T_yb (cfg : Config) (s : RobotState) (msg : LocobotJoy) :
    (joy_control_cb cfg s msg).1.T_yb = s.T_yb := by
  unfold joy_control_cb
  split_ifs
  · rw [togglePhase_T_yb, speedPhase_T_yb]
  · rw [pwmPhase_T_yb, togglePhase_T_yb, speedPhase_T_yb]

lemma cb_rate_eq (cfg : Config) (s : RobotState) (msg : LocobotJoy) :
    (joy_control_cb cfg s msg).1.current_loop_rate
      = (togglePhase (speedPhase { s with joy_msg := msg } msg) msg).current_loop_rate := by
  unfold joy_control_cb
  split_ifs
  · rfl
  · rw [pwmPhase_rate]

lemma cb_coarse_eq (cfg : Config) (s : RobotState) (msg : LocobotJoy) :
    (joy_control_cb cfg s msg).1.loop_rate_coarse
      = (togglePhase (speedPhase { s with joy_msg := msg } msg) msg).loop_rate_coarse := by
  unfold joy_control_cb
  split_ifs
  · rfl
  · rw [pwmPhase_coarse]

lemma cb_fine_eq (cfg : Config) (s : RobotState) (msg : LocobotJoy) :
    (joy_control_cb cfg s msg).1.loop_rate_fine
      = (togglePhase (speedPhase { s with joy_msg := msg } msg) msg).loop_rate_fine := by
  unfold joy_control_cb
  split_ifs
  · rfl
  · rw [pwmPhase_fine]

lemma ratesOk_speedPhase (s : RobotState) (msg : LocobotJoy) (h : RatesOk s) :
    RatesOk (speedPhase s msg) := by
  obtain ⟨⟨n, hn1, hn2, hq⟩, hc, hf⟩ := h
  unfold speedPhase
  split_ifs with h1 h2
  · have hlt : n < 40 := by
      have := h1.2; rw [hq] at this; exact_mod_cast this
    refine ⟨⟨n + 1, by omega, by omega, ?_⟩, hc, hf⟩
    rw [hq]; push_cast; ring
  · have hgt : 10 < n := by
      have := h2.2; rw [hq] at this; exact_mod_cast this
    refine ⟨⟨n - 1, by omega, by omega, ?_⟩, hc, hf⟩
    rw [hq]
    have : ((n - 1 : ℕ) : ℚ) = (n : ℚ) - 1 := by
      push_cast [Nat.cast_sub (by omega : 1 ≤ n)]; ring
    rw [this]
  · exact ⟨⟨n, hn1, hn2, hq⟩, hc, hf⟩

lemma ratesOk_togglePhase (s : RobotState) (msg : LocobotJoy) (h : RatesOk s) :
    RatesOk (togglePhase s msg) := by
  obtain ⟨hr, hc, hf⟩ := h
  cases hm : msg.speed_toggle_cmd <;> simp only [togglePhase, hm]
  · exact ⟨hr, hc, hf⟩
  · exact ⟨hc, hc, hr⟩
  · exact ⟨hf, hr, hf⟩

lemma ratesOk_cb (cfg : Config) (s : RobotState) (msg : LocobotJoy) (h : RatesOk s) :
    RatesOk (joy_control_cb cfg s msg).1 := by
  have hbuf : RatesOk { s with joy_msg := msg } := h
  have h1 : RatesOk (togglePhase (speedPhase { s with joy_msg := msg } msg) msg) :=
    ratesOk_togglePhase _ _ (ratesOk_speedPhase _ _ hbuf)
  refine ⟨?_, ?_, ?_⟩
  · rw [cb_rate_eq]; exact h1.1
  · rw [cb_coarse_eq]; exact h1.2.1
  · rw [cb_fine_eq]; exact h1.2.2

lemma ratesOk_runMsgs (cfg : Config) (s : RobotState) (msgs : List LocobotJoy)
    (h : RatesOk s) : RatesOk (runMsgs cfg s msgs) := by
  induction msgs generalizing s with
  | nil => exact h
  | cons m ms ih => exact ih _ (ratesOk_cb cfg s m h)

lemma initState_rate (ops : AngleOps) (cfg : Config) (T0 : Mat4) :
    (initState ops cfg T0).current_loop_rate = 25 := by
  unfold initState; split_ifs <;> rfl

lemma initState_coarse (ops : AngleOps) (cfg : Config) (T0 : Mat4) :
    (initState ops cfg T0).loop_rate_coarse = 25 := by
  unfold initState; split_ifs <;> rfl

lemma initState_fine (ops : AngleOps) (cfg : Config) (T0 : Mat4) :
    (initState ops cfg T0).loop_rate_fine = 25 := by
  unfold initState; split_ifs <;> rfl

lemma initState_pressure (ops : AngleOps) (cfg : Config) (T0 : Mat4) :
    (initState ops cfg T0).current_gripper_pressure = 1 / 2 := by
  unfold initState; split_ifs <;> rfl

lemma ratesOk_init (ops : AngleOps) (cfg : Config) (T0 : Mat4) :
    RatesOk (initState ops cfg T0) := by
  refine ⟨⟨25, by omega, by omega, ?_⟩, ⟨25, by omega, by omega, ?_⟩,
    ⟨25, by omega, by omega, ?_⟩⟩
  · rw [initState_rate]; norm_num
  · rw [initState_coarse]; norm_num
  · rw [initState_fine]; norm_num

lemma cb_speed_inc_lt (cfg : Config) (s : RobotState) (m : LocobotJoy)
    (h1 : m.speed_cmd = Code.inc) (h2 : m.speed_toggle_cmd = ToggleCode.none)
    (h3 : s.current_loop_rate < 40) :
    (joy_control_cb cfg s m).1.current_loop_rate = s.current_loop_rate + 1 ∧
    (joy_control_cb cfg s m).1.loop_rate_coarse = s.loop_rate_coarse ∧
    (joy_control_cb cfg s m).1.loop_rate_fine = s.loop_rate_fine := by
  rw [cb_rate_eq, cb_coarse_eq, cb_fine_eq]
  simp [togglePhase, speedPhase, h1, h2, h3]

lemma cb_speed_inc_stop (cfg : Config) (s : RobotState) (m : LocobotJoy)
    (h1 : m.speed_cmd = Code.inc) (h2 : m.speed_toggle_cmd = ToggleCode.none)
    (h3 : ¬s.current_loop_rate < 40) :
    (joy_control_cb cfg s m).1.current_loop_rate = s.current_loop_rate := by
  rw [cb_rate_eq]
  simp [togglePhase, speedPhase, h1, h2, h3]

lemma cb_speed_dec_gt (cfg : Config) (s : RobotState) (m : LocobotJoy)
    (h1 : m.speed_cmd = Code.dec) (h2 : m.speed_toggle_cmd = ToggleCode.none)
    (h3 : s.current_loop_rate > 10) :
    (joy_control_cb cfg s m).1.current_loop_rate = s.current_loop_rate - 1 := by
  rw [cb_rate_eq]
  simp [togglePhase, speedPhase, h1, h2, h3]

lemma cb_speed_dec_stop (cfg : Config) (s : RobotState) (m : LocobotJoy)
    (h1 : m.speed_cmd = Code.dec) (h2 : m.speed_toggle_cmd = ToggleCode.none)
    (h3 : ¬s.current_loop_rate > 10) :
    (joy_control_cb cfg s m).1.current_loop_rate = s.current_loop_rate := by
  rw [cb_rate_eq]
  simp [togglePhase, speedPhase, h1, h2, h3]

lemma cb_toggle_coarse (cfg : Config) (s : RobotState) (m : LocobotJoy)
    (h1 : m.speed_cmd = Code.none) (h2 : m.speed_toggle_cmd = ToggleCode.coarse) :
    (joy_control_cb cfg s m).1.current_loop_rate = s.loop_rate_coarse ∧
    (joy_control_cb cfg s m).1.loop_rate_coarse = s.loop_rate_coarse ∧
    (joy_control_cb cfg s m).1.loop_rate_fine = s.current_loop_rate := by
  rw [cb_rate_eq, cb_coarse_eq, cb_fine_eq]
  simp [togglePhase, speedPhase, h1, h2]

lemma cb_toggle_fine (cfg : Config) (s : RobotState) (m : LocobotJoy)
    (h1 : m.speed_cmd = Code.none) (h2 : m.speed_toggle_cmd = ToggleCode.fine) :
    (joy_control_cb cfg s m).1.current_loop_rate = s.loop_rate_fine ∧
    (joy_control_cb cfg s m).1.loop_rate_coarse = s.current_loop_rate ∧
    (joy_control_cb cfg s m).1.loop_rate_fine = s.loop_rate_fine := by
  rw [cb_rate_eq, cb_coarse_eq, cb_fine_eq]
  simp [togglePhase, speedPhase, h1, h2]

lemma cb_pressure_arm (cfg : Config) (s : RobotState) (m : LocobotJoy)
    (harm : cfg.armPresent = true) :
    (joy_control_cb cfg s m).1.current_gripper_pressure
      = (pwmPhase (togglePhase (speedPhase { s with joy_msg := m } m) m) m).1.current_gripper_pressure := by
  unfold joy_control_cb
  simp [harm]

lemma cb_pwm_inc_lt (cfg : Config) (s : RobotState) (m : LocobotJoy)
    (harm : cfg.armPresent = true) (h1 : m.gripper_pwm_cmd = Code.inc)
    (h2 : s.current_gripper_pressure < 1) :
    (joy_control_cb cfg s m).1.current_gripper_pressure
      = s.current_gripper_pressure + gripper_pressure_step := by
  rw [cb_pressure_arm cfg s m harm]
  have hp : (togglePhase (speedPhase { s with joy_msg := m } m) m).current_gripper_pressure
      = s.current_gripper_pressure := by
    rw [togglePhase_pressure, speedPhase_pressure]
  simp [pwmPhase, h1, hp, h2]

lemma cb_pwm_inc_stop (cfg : Config) (s : RobotState) (m : LocobotJoy)
    (h1 : m.gripper_pwm_cmd = Code.inc) (h2 : ¬s.current_gripper_pressure < 1) :
    (joy_control_cb cfg s m).1.current_gripper_pressure = s.current_gripper_pressure := by
  have hp : (togglePhase (speedPhase { s with joy_msg := m } m) m).current_gripper_pressure
      = s.current_gripper_pressure := by
    rw [togglePhase_pressure, speedPhase_pressure]
  unfold joy_control_cb
  split_ifs
  · rw [togglePhase_pressure, speedPhase_pressure]
  · simp [pwmPhase, h1, hp, h2]

lemma cb_pwm_dec_gt (cfg : Config) (s : RobotState) (m : LocobotJoy)
    (harm : cfg.armPresent = true) (h1 : m.gripper_pwm_cmd = Code.dec)
    (h2 : s.current_gripper_pressure > 0) :
    (joy_control_cb cfg s m).1.current_gripper_pressure
      = s.current_gripper_pressure - gripper_pressure_step := by
  rw [cb_pressure_arm cfg s m harm]
  have hp : (togglePhase (speedPhase { s with joy_msg := m } m) m).current_gripper_pressure
      = s.current_gripper_pressure := by
    rw [togglePhase_pressure, speedPhase_pressure]
  simp [pwmPhase, h1, hp, h2]

lemma cb_pwm_dec_stop (cfg : Config) (s : RobotState) (m : LocobotJoy)
    (h1 : m.gripper_pwm_cmd = Code.dec) (h2 : ¬s.current_gripper_pressure > 0) :
    (joy_control_cb cfg s m).1.current_gripper_pressure = s.current_gripper_pressure := by
  have hp : (togglePhase (speedPhase { s with joy_msg := m } m) m).current_gripper_pressure
      = s.current_gripper_pressure := by
    rw [togglePhase_pressure, speedPhase_pressure]
  unfold joy_control_cb
  split_ifs
  · rw [togglePhase_pressure, speedPhase_pressure]
  · simp [pwmPhase, h1, hp, h2]

lemma pressureOk_cb (cfg : Config) (s : RobotState) (m : LocobotJoy)
    (h : PressureOk s.current_gripper_pressure) :
    PressureOk (joy_control_cb cfg s m).1.current_gripper_pressure := by
  obtain ⟨k, hk, hq⟩ := h
  have hp : (togglePhase (speedPhase { s with joy_msg := m } m) m).current_gripper_pressure
      = s.current_gripper_pressure := by
    rw [togglePhase_pressure, speedPhase_pressure]
  unfold joy_control_cb pwmPhase
  dsimp only
  split_ifs with hArm h1 h2 <;> dsimp only
  · rw [hp]; exact ⟨k, hk, hq⟩
  · have hlt : k < 8 := by
      have := h1.2; rw [hp, hq] at this
      by_contra hc
      push_neg at hc
      have : (8 : ℚ) ≤ (k : ℚ) := by exact_mod_cast hc
      nlinarith
    refine ⟨k + 1, by omega, ?_⟩
    rw [hp, hq]; unfold gripper_pressure_step; push_cast; ring
  · have hgt : 0 < k := by
      have := h2.2; rw [hp, hq] at this
      by_contra hc
      push_neg at hc
      interval_cases k
      norm_num at this
    refine ⟨k - 1, by omega, ?_⟩
    rw [hp, hq]; unfold gripper_pressure_step
    have hcast : ((k - 1 : ℕ) : ℚ) = (k : ℚ) - 1 := by
      push_cast [Nat.cast_sub (by omega : 1 ≤ k)]; ring
    rw [hcast]; ring
  · rw [hp]; exact ⟨k, hk, hq⟩

lemma pressureOk_runMsgs (cfg : Config) (s : RobotState) (msgs : List LocobotJoy)
    (h : PressureOk s.current_gripper_pressure) :
    PressureOk (runMsgs cfg s msgs).current_gripper_pressure := by
  induction msgs generalizing s with
  | nil => exact h
  | cons m ms ih => exact ih _ (pressureOk_cb cfg s m h)

lemma pressureOk_bounds (q : ℚ) (h : PressureOk q) : 0 ≤ q ∧ q ≤ 1 := by
  obtain ⟨k, hk, hq⟩ := h
  subst hq
  constructor
  · positivity
  · have : (k : ℚ) ≤ 8 := by exact_mod_cast hk
    linarith

lemma applyUpdateTyb_rate (ops : AngleOps) (s : RobotState) (M : Mat4) :
    (applyUpdateTyb ops s M).current_loop_rate = s.current_loop_rate := rfl

lemma armTickState_scalars (ops : AngleOps) (s : RobotState) (inp : TickInputs) :
    (armTickState ops s inp).current_loop_rate = s.current_loop_rate ∧
    (armTickState ops s inp).loop_rate_coarse = s.loop_rate_coarse ∧
    (armTickState ops s inp).loop_rate_fine = s.loop_rate_fine ∧
    (armTickState ops s inp).current_gripper_pressure = s.current_gripper_pressure ∧
    (armTickState ops s inp).joy_msg = s.joy_msg := by
  unfold armTickState applyUpdateTyb
  dsimp only
  split_ifs <;> exact ⟨rfl, rfl, rfl, rfl, rfl⟩

lemma editPhase_scalars (cfg : Config) (ops : AngleOps) (s : RobotState) (b : Bool) :
    (editPhase cfg ops s b).1.current_loop_rate = s.current_loop_rate ∧
    (editPhase cfg ops s b).1.loop_rate_coarse = s.loop_rate_coarse ∧
    (editPhase cfg ops s b).1.loop_rate_fine = s.loop_rate_fine ∧
    (editPhase cfg ops s b).1.current_gripper_pressure = s.current_gripper_pressure ∧
    (editPhase cfg ops s b).1.joy_msg = s.joy_msg ∧
    (editPhase cfg ops s b).1.T_sy = s.T_sy := by
  unfold editPhase
  dsimp only
  split_ifs <;> exact ⟨rfl, rfl, rfl, rfl, rfl, rfl⟩

lemma controller_rate (cfg : Config) (ops : AngleOps) (s : RobotState) (inp : TickInputs) :
    (controller cfg ops s inp).1.current_loop_rate = s.current_loop_rate := by
  unfold controller
  dsimp only
  split_ifs
  · rfl
  · rw [(editPhase_scalars _ _ _ _).1, (armTickState_scalars _ _ _).1]

lemma controller_coarse (cfg : Config) (ops : AngleOps) (s : RobotState) (inp : TickInputs) :
    (controller cfg ops s inp).1.loop_rate_coarse = s.loop_rate_coarse := by
  unfold controller
  dsimp only
  split_ifs
  · rfl
  · rw [(editPhase_scalars _ _ _ _).2.1, (armTickState_scalars _ _ _).2.1]

lemma controller_fine (cfg : Config) (ops : AngleOps) (s : RobotState) (inp : TickInputs) :
    (controller cfg ops s inp).1.loop_rate_fine = s.loop_rate_fine := by
  unfold controller
  dsimp only
  split_ifs
  · rfl
  · rw [(editPhase_scalars _ _ _ _).2.2.1, (armTickState_scalars _ _ _).2.2.1]

lemma controller_pressure (cfg : Config) (ops : AngleOps) (s : RobotState) (inp : TickInputs) :
    (controller cfg ops s inp).1.current_gripper_pressure = s.current_gripper_pressure := by
  unfold controller
  dsimp only
  split_ifs
  · rfl
  · rw [(editPhase_scalars _ _ _ _).2.2.2.1, (armTickState_scalars _ _ _).2.2.2.1]

lemma controller_joy_msg (cfg : Config) (ops : AngleOps) (s : RobotState) (inp : TickInputs) :
    (controller cfg ops s inp).1.joy_msg = s.joy_msg := by
  unfold controller
  dsimp only
  split_ifs
  · rfl
  · rw [(editPhase_scalars _ _ _ _).2.2.2.2.1, (armTickState_scalars _ _ _).2.2.2.2]

lemma camEvents_tickKind (msg : LocobotJoy) (inp : TickInputs) :
    ∀ e ∈ camEvents msg inp, tickEventKind e = true := by
  unfold camEvents
  split_ifs <;> intro e he <;> simp at he <;> subst he <;> rfl

lemma baseEvents_tickKind (cfg : Config) (msg : LocobotJoy) :
    ∀ e ∈ baseEvents cfg msg, tickEventKind e = true := by
  unfold baseEvents
  split_ifs <;> intro e he <;> simp at he
  subst he; rfl

lemma poseEvents_tickKind (msg : LocobotJoy) :
    ∀ e ∈ poseEvents msg, tickEventKind e = true := by
  unfold poseEvents
  cases msg.pose_cmd <;> intro e he <;> simp at he <;> subst he <;> rfl

lemma waistEvents_tickKind (cfg : Config) (msg : LocobotJoy) (inp : TickInputs) :
    ∀ e ∈ waistEvents cfg msg inp, tickEventKind e = true := by
  unfold waistEvents
  cases msg.waist_cmd
  · intro e he; simp at he
  · dsimp only
    split_ifs <;> intro e he <;> simp at he <;>
      first
      | (rcases he with h | h <;> subst h <;> rfl)
      | (subst he; rfl)
  · dsimp only
    split_ifs <;> intro e he <;> simp at he <;>
      first
      | (rcases he with h | h <;> subst h <;> rfl)
      | (subst he; rfl)

lemma editPhase_tickKind (cfg : Config) (ops : AngleOps) (s : RobotState) (b : Bool) :
    ∀ e ∈ (editPhase cfg ops s b).2, tickEventKind e = true := by
  unfold editPhase
  dsimp only
  split_ifs <;> intro e he <;> simp at he <;> (subst he; rfl)

lemma controller_events_tickKind (cfg : Config) (ops : AngleOps) (s : RobotState)
    (inp : TickInputs) : ∀ e ∈ (controller cfg ops s inp).2, tickEventKind e = true := by
  unfold controller
  dsimp only
  split_ifs <;> intro e he <;> simp only [List.mem_append] at he
  · rcases he with h | h
    · exact camEvents_tickKind _ _ e h
    · exact baseEvents_tickKind _ _ e h
  · rcases he with ((((h | h) | h) | h) | h)
    · exact camEvents_tickKind _ _ e h
    · exact baseEvents_tickKind _ _ e h
    · exact poseEvents_tickKind _ e h
    · exact waistEvents_tickKind _ _ _ e h
    · exact editPhase_tickKind _ _ _ _ e h

lemma controller_events_arm (cfg : Config) (ops : AngleOps) (s : RobotState)
    (inp : TickInputs) (harm : cfg.armPresent = true) :
    (controller cfg ops s inp).2
      = camEvents s.joy_msg inp ++ baseEvents cfg s.joy_msg ++ poseEvents s.joy_msg
          ++ waistEvents cfg s.joy_msg inp
          ++ (editPhase cfg ops (armTickState ops s inp) inp.ikOk).2 := by
  unfold controller
  dsimp only
  split_ifs with h
  · rw [harm] at h; cases h
  · simp [List.append_assoc]

lemma controller_state_arm (cfg : Config) (ops : AngleOps) (s : RobotState)
    (inp : TickInputs) (harm : cfg.armPresent = true) :
    (controller cfg ops s inp).1
      = (editPhase cfg ops (armTickState ops s inp) inp.ikOk).1 := by
  unfold controller
  dsimp only
  split_ifs with h
  · rw [harm] at h; cases h
  · rfl

lemma cb_events_arm (cfg : Config) (s : RobotState) (m : LocobotJoy)
    (harm : cfg.armPresent = true) :
    (joy_control_cb cfg s m).2
      = odomEvents cfg m ++ gripperEvents m
          ++ (pwmPhase (togglePhase (speedPhase { s with joy_msg := m } m) m) m).2 := by
  unfold joy_control_cb
  dsimp only
  split_ifs with h
  · rw [harm] at h; cases h
  · rfl

lemma cb_events_noarm (cfg : Config) (s : RobotState) (m : LocobotJoy)
    (harm : cfg.armPresent = false) :
    (joy_control_cb cfg s m).2 = odomEvents cfg m := by
  unfold joy_control_cb
  dsimp only
  split_ifs
  rfl

lemma yawForm_one : yawForm 1 0 = 1 := by
  ext i j
  fin_cases i <;> fin_cases j <;> simp [yawForm, Matrix.one_apply]

lemma setYawBlock_yawForm (c0 s0 c s : ℚ) :
    setYawBlock (yawForm c0 s0) c s = yawForm c s := by
  ext i j
  fin_cases i <;> fin_cases j <;> simp [setYawBlock, yawForm]

lemma trans_inv_yawForm (c s : ℚ) : trans_inv (yawForm c s) = yawForm c (-s) := by
  ext i j
  fin_cases i <;> fin_cases j <;> simp [trans_inv, yawForm] <;> rfl

lemma yawForm_mul_neg (c s : ℚ) (h : c ^ 2 + s ^ 2 = 1) :
    yawForm c s * yawForm c (-s) = 1 := by
  ext i j
  fin_cases i <;> fin_cases j <;>
    simp [yawForm, Matrix.mul_apply, Fin.sum_univ_four, Matrix.one_apply] <;>
    linarith [h]

lemma transpose_yawForm (c s : ℚ) :
    Matrix.transpose (yawForm c s) = yawForm c (-s) := by
  ext i j
  fin_cases i <;> fin_cases j <;> simp [yawForm, Matrix.transpose_apply]

lemma pureYaw_one : PureYaw (1 : Mat4) := ⟨1, 0, by norm_num, yawForm_one.symm⟩

lemma opsId_pythag : opsId.Pythag := by
  intro θ
  norm_num [opsId]

lemma pureYaw_update (ops : AngleOps) (hpy : ops.Pythag) (T M : Mat4)
    (h : PureYaw T) : PureYaw (update_T_yb ops T M).1 := by
  obtain ⟨c0, s0, h0, hT⟩ := h
  subst hT
  exact ⟨_, _, hpy _, by unfold update_T_yb; dsimp only; rw [setYawBlock_yawForm]⟩

lemma update_roundtrip (ops : AngleOps) (hpy : ops.Pythag) (T M : Mat4)
    (h : PureYaw T) : (update_T_yb ops T M).1 * (update_T_yb ops T M).2 = M := by
  obtain ⟨c0, s0, h0, hT⟩ := h
  subst hT
  unfold update_T_yb
  dsimp only
  rw [setYawBlock_yawForm, trans_inv_yawForm, ← mul_assoc,
    yawForm_mul_neg _ _ (hpy _), one_mul]

lemma initState_pureYaw (ops : AngleOps) (cfg : Config) (T0 : Mat4)
    (hpy : ops.Pythag) : PureYaw (initState ops cfg T0).T_sy := by
  unfold initState
  dsimp only
  split_ifs
  · exact pureYaw_update ops hpy 1 T0 pureYaw_one
  · exact pureYaw_one

lemma armTickState_pureYaw (ops : AngleOps) (hpy : ops.Pythag) (s : RobotState)
    (inp : TickInputs) (h : PureYaw s.T_sy) :
    PureYaw (armTickState ops s inp).T_sy := by
  unfold armTickState applyUpdateTyb
  dsimp only
  split_ifs <;>
    first
    | exact h
    | exact pureYaw_update ops hpy _ _ h
    | exact pureYaw_update ops hpy _ _ (pureYaw_update ops hpy _ _ h)

lemma controller_pureYaw (cfg : Config) (ops : AngleOps) (s : RobotState)
    (inp : TickInputs) (hpy : ops.Pythag) (h : PureYaw s.T_sy) :
    PureYaw (controller cfg ops s inp).1.T_sy := by
  unfold controller
  dsimp only
  split_ifs
  · exact h
  · rw [(editPhase_scalars _ _ _ _).2.2.2.2.2]
    exact armTickState_pureYaw ops hpy s inp h

lemma reachable_pureYaw (cfg : Config) (ops : AngleOps) (T0 : Mat4) (s : RobotState)
    (hpy : ops.Pythag) (h : Reachable cfg ops T0 s) : PureYaw s.T_sy := by
  unfold Reachable at h
  induction h with
  | refl => exact initState_pureYaw ops cfg T0 hpy
  | tail hab hbc ih =>
    cases hbc with
    | cb msg => rw [cb_T_sy]; exact ih
    | tick inp => exact controller_pureYaw _ _ _ _ hpy ih

lemma setEntry_same (T : Mat4) (r c : Fin 4) (v : ℚ) : setEntry T r c v r c = v := by
  simp [setEntry]

lemma setEntry_ne (T : Mat4) (r c : Fin 4) (v : ℚ) (i j : Fin 4)
    (h : ¬(i = r ∧ j = c)) : setEntry T r c v i j = T i j := by
  simp only [setEntry, Matrix.of_apply, if_neg h]

lemma ikTargets_append (a b : List Event) :
    ikTargets (a ++ b) = ikTargets a ++ ikTargets b := by
  unfold ikTargets
  rw [List.filterMap_append]

lemma waistTargets_append (a b : List Event) :
    waistTargets (a ++ b) = waistTargets a ++ waistTargets b := by
  unfold waistTargets
  rw [List.filterMap_append]

lemma ikTargets_camEvents (msg : LocobotJoy) (inp : TickInputs) :
    ikTargets (camEvents msg inp) = [] := by
  unfold camEvents
  split_ifs <;> simp [ikTargets]

lemma ikTargets_baseEvents (cfg : Config) (msg : LocobotJoy) :
    ikTargets (baseEvents cfg msg) = [] := by
  unfold baseEvents
  split_ifs <;> simp [ikTargets]

lemma ikTargets_poseEvents (msg : LocobotJoy) : ikTargets (poseEvents msg) = [] := by
  unfold poseEvents
  cases msg.pose_cmd <;> simp [ikTargets]

lemma ikTargets_waistEvents (cfg : Config) (msg : LocobotJoy) (inp : TickInputs) :
    ikTargets (waistEvents cfg msg inp) = [] := by
  unfold waistEvents
  cases msg.waist_cmd <;> dsimp only <;> try split_ifs
  all_goals simp [ikTargets]

lemma waistTargets_camEvents (msg : LocobotJoy) (inp : TickInputs) :
    waistTargets (camEvents msg inp) = [] := by
  unfold camEvents
  split_ifs <;> simp [waistTargets]

lemma waistTargets_baseEvents (cfg : Config) (msg : LocobotJoy) :
    waistTargets (baseEvents cfg msg) = [] := by
  unfold baseEvents
  split_ifs <;> simp [waistTargets]

lemma waistTargets_poseEvents (msg : LocobotJoy) :
    waistTargets (poseEvents msg) = [] := by
  unfold poseEvents
  cases msg.pose_cmd <;> simp [waistTargets]

lemma waistTargets_editPhase (cfg : Config) (ops : AngleOps) (s : RobotState) (b : Bool) :
    waistTargets (editPhase cfg ops s b).2 = [] := by
  unfold editPhase
  dsimp only
  split_ifs <;> simp [waistTargets]

lemma armTickState_id (ops : AngleOps) (s : RobotState) (inp : TickInputs)
    (h1 : s.joy_msg.pose_cmd = PoseCode.none) (h2 : s.joy_msg.waist_cmd = WaistCode.none) :
    armTickState ops s inp = s := by
  unfold armTickState
  simp [h1, h2]

lemma editPhase_inactive (cfg : Config) (ops : AngleOps) (s : RobotState) (b : Bool)
    (h : ¬(positionChanged cfg s.joy_msg ∨ orientationChanged s.joy_msg)) :
    editPhase cfg ops s b = (s, []) := by
  unfold editPhase
  rw [if_neg h]

lemma editPhase_active (cfg : Config) (ops : AngleOps) (s : RobotState) (b : Bool)
    (h : positionChanged cfg s.joy_msg ∨ orientationChanged s.joy_msg) :
    editPhase cfg ops s b
      = (if b then { s with T_yb := workingTyb cfg ops s.joy_msg s.T_yb } else s,
          [Event.ikRequest (s.T_sy * workingTyb cfg ops s.joy_msg s.T_yb)]) := by
  unfold editPhase
  rw [if_pos h]

lemma controller_waistTargets (cfg : Config) (ops : AngleOps) (s : RobotState)
    (inp : TickInputs) (harm : cfg.armPresent = true) :
    waistTargets (controller cfg ops s inp).2
      = waistTargets (waistEvents cfg s.joy_msg inp) := by
  rw [controller_events_arm cfg ops s inp harm]
  rw [waistTargets_append, waistTargets_append, waistTargets_append, waistTargets_append]
  rw [waistTargets_camEvents, waistTargets_baseEvents, waistTargets_poseEvents,
    waistTargets_editPhase]
  simp

lemma waistTargets_waistEvents_ccw (cfg : Config) (msg : LocobotJoy) (inp : TickInputs)
    (h : msg.waist_cmd = WaistCode.ccw) :
    waistTargets (waistEvents cfg msg inp)
      = if inp.waistSetOk (inp.waistPos + waist_step) = false ∧ inp.waistPos ≠ cfg.waist_ul
        then [inp.waistPos + waist_step, cfg.waist_ul]
        else [inp.waistPos + waist_step] := by
  unfold waistEvents
  rw [h]
  dsimp only
  split_ifs <;> simp [waistTargets]

lemma waistTargets_waistEvents_cw (cfg : Config) (msg : LocobotJoy) (inp : TickInputs)
    (h : msg.waist_cmd = WaistCode.cw) :
    waistTargets (waistEvents cfg msg inp)
      = if inp.waistSetOk (inp.waistPos - waist_step) = false ∧ inp.waistPos ≠ cfg.waist_ll
        then [inp.waistPos - waist_step, cfg.waist_ll]
        else [inp.waistPos - waist_step] := by
  unfold waistEvents
  rw [h]
  dsimp only
  split_ifs <;> simp [waistTargets]

lemma controller_no_edit (cfg : Config) (ops : AngleOps) (s : RobotState)
    (inp : TickInputs) (harm : cfg.armPresent = true)
    (hpose : s.joy_msg.pose_cmd = PoseCode.none)
    (hwaist : s.joy_msg.waist_cmd = WaistCode.none)
    (hne : ¬(positionChanged cfg s.joy_msg ∨ orientationChanged s.joy_msg)) :
    (controller cfg ops s inp).1 = s ∧ ikTargets (controller cfg ops s inp).2 = [] := by
  have hats := armTickState_id ops s inp hpose hwaist
  constructor
  · rw [controller_state_arm cfg ops s inp harm, hats,
      editPhase_inactive cfg ops s inp.ikOk hne]
  · rw [controller_events_arm cfg ops s inp harm, hats,
      editPhase_inactive cfg ops s inp.ikOk hne]
    rw [ikTargets_append, ikTargets_append, ikTargets_append, ikTargets_append]
    rw [ikTargets_camEvents, ikTargets_baseEvents, ikTargets_poseEvents,
      ikTargets_waistEvents]
    simp [ikTargets]

lemma controller_edit (cfg : Config) (ops : AngleOps) (s : RobotState)
    (inp : TickInputs) (harm : cfg.armPresent = true)
    (hpose : s.joy_msg.pose_cmd = PoseCode.none)
    (hwaist : s.joy_msg.waist_cmd = WaistCode.none)
    (hedit : positionChanged cfg s.joy_msg ∨ orientationChanged s.joy_msg) :
    ikTargets (controller cfg ops s inp).2
      = [s.T_sy * workingTyb cfg ops s.joy_msg s.T_yb] ∧
    (controller cfg ops s inp).1
      = (if inp.ikOk then { s with T_yb := workingTyb cfg ops s.joy_msg s.T_yb }
         else s) := by
  have hats := armTickState_id ops s inp hpose hwaist
  constructor
  · rw [controller_events_arm cfg ops s inp harm, hats,
      editPhase_active cfg ops s inp.ikOk hedit]
    rw [ikTargets_append, ikTargets_append, ikTargets_append, ikTargets_append]
    rw [ikTargets_camEvents, ikTargets_baseEvents, ikTargets_poseEvents,
      ikTargets_waistEvents]
    simp [ikTargets]
  · rw [controller_state_arm cfg ops s inp harm, hats,
      editPhase_active cfg ops s inp.ikOk hedit]

lemma workingTyb_eeX (cfg : Config) (ops : AngleOps) (T : Mat4) :
    workingTyb cfg ops eeXIncMsg T = setEntry T 0 3 (T 0 3 + translate_step) := by
  simp [workingTyb, applyPositionEdits, positionChanged, orientationChanged,
    eeXIncMsg, zeroMsg]

/-- C8: in every reachable state of the controller, T_sy is a rigid
homogeneous transform whose rotation is a pure yaw with zero translation: it
has the yaw shape (planar rotation block with cosine/sine entries satisfying
the Pythagorean identity, identity z row/column and translation column), and
it is orthogonal. -/
theorem c8_T_sy_pure_yaw (cfg : Config) (ops : AngleOps) (T0 : Mat4)
    (s : RobotState) (hpy : ops.Pythag) (h : Reachable cfg ops T0 s) :
    (∃ c sn : ℚ, c ^ 2 + sn ^ 2 = 1 ∧ s.T_sy = yawForm c sn) ∧
    s.T_sy * Matrix.transpose s.T_sy = 1 ∧
    (∀ i : Fin 4, s.T_sy i 3 = (1 : Mat4) i 3 ∧ s.T_sy 3 i = (1 : Mat4) 3 i ∧
      s.T_sy i 2 = (1 : Mat4) i 2 ∧ s.T_sy 2 i = (1 : Mat4) 2 i) := by
  obtain ⟨c, sn, hcs, hT⟩ := reachable_pureYaw cfg ops T0 s hpy h
  refine ⟨⟨c, sn, hcs, hT⟩, ?_, ?_⟩
  · rw [hT, transpose_yawForm, yawForm_mul_neg c sn hcs]
  · intro i
    rw [hT]
    fin_cases i <;> refine ⟨?_, ?_, ?_, ?_⟩ <;> simp [yawForm, Matrix.one_apply]

/-- C8 witness: the identity-like angle operations satisfy the Pythagorean
identity and the start state is reachable, at which the theorem yields the
pure-yaw shape. -/
theorem c8_T_sy_pure_yaw_witness :
    opsId.Pythag ∧ Reachable cfgArm opsId 1 (initState opsId cfgArm 1) ∧
    (∃ c sn : ℚ, c ^ 2 + sn ^ 2 = 1 ∧ (initState opsId cfgArm 1).T_sy = yawForm c sn) :=
  ⟨opsId_pythag, Relation.ReflTransGen.refl,
    (c8_T_sy_pure_yaw cfgArm opsId 1 (initState opsId cfgArm 1) opsId_pythag
      Relation.ReflTransGen.refl).1⟩

/-- C2: in every reachable state, a call to update_T_yb against the arm's
authoritative commanded pose T_sb leaves a decomposition whose composition
T_sy * T_yb reproduces T_sb exactly (hence within any tolerance); the same
holds for the state updated by the call, and for the startup call made by the
constructor when an arm is present. -/
theorem c2_recompute_roundtrip (cfg : Config) (ops : AngleOps) (T0 : Mat4)
    (s : RobotState) (hpy : ops.Pythag) (h : Reachable cfg ops T0 s) (T_sb : Mat4) :
    (update_T_yb ops s.T_sy T_sb).1 * (update_T_yb ops s.T_sy T_sb).2 = T_sb ∧
    (applyUpdateTyb ops s T_sb).T_sy * (applyUpdateTyb ops s T_sb).T_yb = T_sb ∧
    (cfg.armPresent = true →
      (initState ops cfg T0).T_sy * (initState ops cfg T0).T_yb = T0) := by
  have hp := reachable_pureYaw cfg ops T0 s hpy h
  refine ⟨update_roundtrip ops hpy _ T_sb hp, update_roundtrip ops hpy _ T_sb hp, ?_⟩
  intro harm
  unfold initState
  dsimp only
  split_ifs
  exact update_roundtrip ops hpy 1 T0 pureYaw_one

/-- C2 witness: concrete round trip at the reachable start state. -/
theorem c2_recompute_roundtrip_witness :
    opsId.Pythag ∧
    (update_T_yb opsId (initState opsId cfgArm 1).T_sy 1).1
      * (update_T_yb opsId (initState opsId cfgArm 1).T_sy 1).2 = 1 :=
  ⟨opsId_pythag,
    (c2_recompute_roundtrip cfgArm opsId 1 (initState opsId cfgArm 1) opsId_pythag
      Relation.ReflTransGen.refl 1).1⟩

/-- C6: from the initial state, under every sequence of incoming command
messages (speed increments/decrements interleaved arbitrarily with
coarse/fine toggles) the loop rate stays within [10, 40]; a speed increment on
a toggle-free message raises the rate by exactly 1 when it is below 40 and
leaves it unchanged at 40, and a decrement lowers it by exactly 1 when it is
above 10 and leaves it unchanged at 10. -/
theorem c6_loop_rate_bounds (cfg : Config) (ops : AngleOps) (T0 : Mat4)
    (msgs : List LocobotJoy) :
    10 ≤ (runMsgs cfg (initState ops cfg T0) msgs).current_loop_rate ∧
    (runMsgs cfg (initState ops cfg T0) msgs).current_loop_rate ≤ 40 ∧
    (∀ m : LocobotJoy, m.speed_cmd = Code.inc → m.speed_toggle_cmd = ToggleCode.none →
      ((runMsgs cfg (initState ops cfg T0) msgs).current_loop_rate < 40 →
        (joy_control_cb cfg (runMsgs cfg (initState ops cfg T0) msgs) m).1.current_loop_rate
          = (runMsgs cfg (initState ops cfg T0) msgs).current_loop_rate + 1) ∧
      ((runMsgs cfg (initState ops cfg T0) msgs).current_loop_rate = 40 →
        (joy_control_cb cfg (runMsgs cfg (initState ops cfg T0) msgs) m).1.current_loop_rate
          = 40)) ∧
    (∀ m : LocobotJoy, m.speed_cmd = Code.dec → m.speed_toggle_cmd = ToggleCode.none →
      (10 < (runMsgs cfg (initState ops cfg T0) msgs).current_loop_rate →
        (joy_control_cb cfg (runMsgs cfg (initState ops cfg T0) msgs) m).1.current_loop_rate
          = (runMsgs cfg (initState ops cfg T0) msgs).current_loop_rate - 1) ∧
      ((runMsgs cfg (initState ops cfg T0) msgs).current_loop_rate = 10 →
        (joy_control_cb cfg (runMsgs cfg (initState ops cfg T0) msgs) m).1.current_loop_rate
          = 10)) := by
  obtain ⟨⟨n, hn1, hn2, hq⟩, _, _⟩ :=
    ratesOk_runMsgs cfg (initState ops cfg T0) msgs (ratesOk_init ops cfg T0)
  refine ⟨?_, ?_, ?_, ?_⟩
  · rw [hq]; exact_mod_cast hn1
  · rw [hq]; exact_mod_cast hn2
  · intro m h1 h2
    constructor
    · intro hlt
      exact (cb_speed_inc_lt cfg _ m h1 h2 hlt).1
    · intro heq
      rw [cb_speed_inc_stop cfg _ m h1 h2 (by rw [heq]; norm_num), heq]
  · intro m h1 h2
    constructor
    · intro hgt
      exact cb_speed_dec_gt cfg _ m h1 h2 hgt
    · intro heq
      rw [cb_speed_dec_stop cfg _ m h1 h2 (by rw [heq]; norm_num), heq]

/-- C6 witness: concrete instance with the empty message sequence and one
speed increment at rate 25. -/
theorem c6_loop_rate_bounds_witness :
    speedIncMsg.speed_cmd = Code.inc ∧
    (runMsgs cfgArm (initState opsId cfgArm 1) []).current_loop_rate < 40 ∧
    (joy_control_cb cfgArm (runMsgs cfgArm (initState opsId cfgArm 1) []) speedIncMsg).1.current_loop_rate
      = (runMsgs cfgArm (initState opsId cfgArm 1) []).current_loop_rate + 1 :=
  ⟨rfl, by rw [show runMsgs cfgArm (initState opsId cfgArm 1) [] = initState opsId cfgArm 1 from rfl,
      initState_rate]; norm_num,
    ((c6_loop_rate_bounds cfgArm opsId 1 []).2.2.1 speedIncMsg rfl rfl).1
      (by rw [show runMsgs cfgArm (initState opsId cfgArm 1) [] = initState opsId cfgArm 1 from rfl,
        initState_rate]; norm_num)⟩

/-- C10: from the initial state (rate 25, both memory slots 25), after any
sequence of incoming command messages the loop rate and both remembered
profile rates are integers in {10, ..., 40}; no clamping is ever needed. -/
theorem c10_rates_integer (cfg : Config) (ops : AngleOps) (T0 : Mat4)
    (msgs : List LocobotJoy) :
    (∃ n : ℕ, 10 ≤ n ∧ n ≤ 40 ∧
      (runMsgs cfg (initState ops cfg T0) msgs).current_loop_rate = (n : ℚ)) ∧
    (∃ n : ℕ, 10 ≤ n ∧ n ≤ 40 ∧
      (runMsgs cfg (initState ops cfg T0) msgs).loop_rate_coarse = (n : ℚ)) ∧
    (∃ n : ℕ, 10 ≤ n ∧ n ≤ 40 ∧
      (runMsgs cfg (initState ops cfg T0) msgs).loop_rate_fine = (n : ℚ)) :=
  ratesOk_runMsgs cfg (initState ops cfg T0) msgs (ratesOk_init ops cfg T0)

/-- C9: from the constructed initial pressure 1/2 with step 1/8, under every
sequence of incoming messages the gripper pressure stays exactly within
[0, 1] and is always an integer multiple of 1/8; an increment at pressure 1
and a decrement at pressure 0 are no-ops, and four increments from the
initial state reach exactly 1. -/
theorem c9_gripper_pressure :
    (∀ (cfg : Config) (ops : AngleOps) (T0 : Mat4) (msgs : List LocobotJoy),
      0 ≤ (runMsgs cfg (initState ops cfg T0) msgs).current_gripper_pressure ∧
      (runMsgs cfg (initState ops cfg T0) msgs).current_gripper_pressure ≤ 1 ∧
      ∃ k : ℕ, k ≤ 8 ∧
        (runMsgs cfg (initState ops cfg T0) msgs).current_gripper_pressure = (k : ℚ) / 8) ∧
    (∀ (cfg : Config) (s : RobotState) (m : LocobotJoy), m.gripper_pwm_cmd = Code.inc →
      s.current_gripper_pressure = 1 →
      (joy_control_cb cfg s m).1.current_gripper_pressure = 1) ∧
    (∀ (cfg : Config) (s : RobotState) (m : LocobotJoy), m.gripper_pwm_cmd = Code.dec →
      s.current_gripper_pressure = 0 →
      (joy_control_cb cfg s m).1.current_gripper_pressure = 0) ∧
    (runMsgs cfgArm (initState opsId cfgArm 1)
      (List.replicate 4 pwmIncMsg)).current_gripper_pressure = 1 := by
  have hinitp : PressureOk (initState opsId cfgArm (1 : Mat4)).current_gripper_pressure := by
    rw [initState_pressure]; exact ⟨4, by omega, by norm_num⟩
  refine ⟨?_, ?_, ?_, ?_⟩
  · intro cfg ops T0 msgs
    have h := pressureOk_runMsgs cfg (initState ops cfg T0) msgs
      (by rw [initState_pressure]; exact ⟨4, by omega, by norm_num⟩)
    obtain ⟨hb1, hb2⟩ := pressureOk_bounds _ h
    exact ⟨hb1, hb2, h⟩
  · intro cfg s m h1 h2
    rw [cb_pwm_inc_stop cfg s m h1 (by rw [h2]; norm_num), h2]
  · intro cfg s m h1 h2
    rw [cb_pwm_dec_stop cfg s m h1 (by rw [h2]; norm_num), h2]
  · have harm : cfgArm.armPresent = true := rfl
    have hm : pwmIncMsg.gripper_pwm_cmd = Code.inc := rfl
    have e0 : (initState opsId cfgArm (1 : Mat4)).current_gripper_pressure = 1 / 2 :=
      initState_pressure opsId cfgArm 1
    show (joy_control_cb cfgArm (joy_control_cb cfgArm (joy_control_cb cfgArm
      (joy_control_cb cfgArm (initState opsId cfgArm 1) pwmIncMsg).1 pwmIncMsg).1
      pwmIncMsg).1 pwmIncMsg).1.current_gripper_pressure = 1
    have e1 : (joy_control_cb cfgArm (initState opsId cfgArm 1)
        pwmIncMsg).1.current_gripper_pressure = 5 / 8 := by
      rw [cb_pwm_inc_lt cfgArm _ pwmIncMsg harm hm (by rw [e0]; norm_num), e0]
      norm_num [gripper_pressure_step]
    have e2 : (joy_control_cb cfgArm (joy_control_cb cfgArm (initState opsId cfgArm 1)
        pwmIncMsg).1 pwmIncMsg).1.current_gripper_pressure = 6 / 8 := by
      rw [cb_pwm_inc_lt cfgArm _ pwmIncMsg harm hm (by rw [e1]; norm_num), e1]
      norm_num [gripper_pressure_step]
    have e3 : (joy_control_cb cfgArm (joy_control_cb cfgArm (joy_control_cb cfgArm
        (initState opsId cfgArm 1) pwmIncMsg).1 pwmIncMsg).1
        pwmIncMsg).1.current_gripper_pressure = 7 / 8 := by
      rw [cb_pwm_inc_lt cfgArm _ pwmIncMsg harm hm (by rw [e2]; norm_num), e2]
      norm_num [gripper_pressure_step]
    rw [cb_pwm_inc_lt cfgArm _ pwmIncMsg harm hm (by rw [e3]; norm_num), e3]
    norm_num [gripper_pressure_step]

/-- C9 witness: concrete instance of the saturation conjunct at pressure 1. -/
theorem c9_gripper_pressure_witness :
    pwmIncMsg.gripper_pwm_cmd = Code.inc ∧ sPressFull.current_gripper_pressure = 1 ∧
    (joy_control_cb cfgArm sPressFull pwmIncMsg).1.current_gripper_pressure = 1 :=
  ⟨rfl, rfl, c9_gripper_pressure.2.1 cfgArm sPressFull pwmIncMsg rfl rfl⟩

/-- C7 counterexample: from the reachable-shape state with rate 30 and both
memory slots 25, the toggle sequence coarse, fine, coarse ends at rate 25,
not at the original rate 30, refuting the claimed exact round trip. -/
theorem c7_counterexample :
    sRate30.current_loop_rate = 30 ∧
    (runMsgs cfgArm sRate30 [coarseMsg, fineMsg, coarseMsg]).current_loop_rate = 25 ∧
    ¬(runMsgs cfgArm sRate30 [coarseMsg, fineMsg, coarseMsg]).current_loop_rate
        = sRate30.current_loop_rate := by
  have h1 := cb_toggle_coarse cfgArm sRate30 coarseMsg rfl rfl
  have h2 := cb_toggle_fine cfgArm (joy_control_cb cfgArm sRate30 coarseMsg).1 fineMsg rfl rfl
  have h3 := cb_toggle_coarse cfgArm
    (joy_control_cb cfgArm (joy_control_cb cfgArm sRate30 coarseMsg).1 fineMsg).1
    coarseMsg rfl rfl
  have hfinal : (runMsgs cfgArm sRate30 [coarseMsg, fineMsg, coarseMsg]).current_loop_rate
      = 25 := by
    show (joy_control_cb cfgArm (joy_control_cb cfgArm (joy_control_cb cfgArm sRate30
      coarseMsg).1 fineMsg).1 coarseMsg).1.current_loop_rate = 25
    rw [h3.1, h2.2.1, h1.1]; rfl
  exact ⟨rfl, hfinal, by rw [hfinal]; norm_num [sRate30]⟩

/-- C7 amended: the two-toggle sequences coarse-then-fine and fine-then-coarse
restore the rate that was current immediately before the sequence exactly;
the three-toggle sequence coarse, fine, coarse instead ends at the value the
coarse memory slot held before the sequence. -/
theorem c7_amended_toggle (cfg : Config) (s : RobotState) :
    (runMsgs cfg s [coarseMsg, fineMsg]).current_loop_rate = s.current_loop_rate ∧
    (runMsgs cfg s [fineMsg, coarseMsg]).current_loop_rate = s.current_loop_rate ∧
    (runMsgs cfg s [coarseMsg, fineMsg, coarseMsg]).current_loop_rate
      = s.loop_rate_coarse := by
  have h1 := cb_toggle_coarse cfg s coarseMsg rfl rfl
  have h2 := cb_toggle_fine cfg (joy_control_cb cfg s coarseMsg).1 fineMsg rfl rfl
  have h3 := cb_toggle_coarse cfg
    (joy_control_cb cfg (joy_control_cb cfg s coarseMsg).1 fineMsg).1 coarseMsg rfl rfl
  have h4 := cb_toggle_fine cfg s fineMsg rfl rfl
  have h5 := cb_toggle_coarse cfg (joy_control_cb cfg s fineMsg).1 coarseMsg rfl rfl
  refine ⟨?_, ?_, ?_⟩
  · show (joy_control_cb cfg (joy_control_cb cfg s coarseMsg).1
      fineMsg).1.current_loop_rate = s.current_loop_rate
    rw [h2.1, h1.2.2]
  · show (joy_control_cb cfg (joy_control_cb cfg s fineMsg).1
      coarseMsg).1.current_loop_rate = s.current_loop_rate
    rw [h5.1, h4.2.1]
  · show (joy_control_cb cfg (joy_control_cb cfg (joy_control_cb cfg s coarseMsg).1
      fineMsg).1 coarseMsg).1.current_loop_rate = s.loop_rate_coarse
    rw [h3.1, h2.2.1, h1.1]

/-- C3 counterexample: with a speed-increment command buffered as the tick's
snapshot, one controller tick leaves the loop rate unchanged at 25 (so the
tick does not perform the speed adjustment), while the arrival callback for
the same message raises it to 26. -/
theorem c3_counterexample :
    sSpeedBuf.joy_msg.speed_cmd = Code.inc ∧
    sSpeedBuf.current_loop_rate = 25 ∧
    (controller cfgArm opsId sSpeedBuf inpZero).1.current_loop_rate = 25 ∧
    ¬(controller cfgArm opsId sSpeedBuf inpZero).1.current_loop_rate
        = sSpeedBuf.current_loop_rate + 1 ∧
    (joy_control_cb cfgArm sSpeedBuf speedIncMsg).1.current_loop_rate = 26 := by
  have hc : (controller cfgArm opsId sSpeedBuf inpZero).1.current_loop_rate = 25 := by
    rw [controller_rate]; rfl
  refine ⟨rfl, rfl, hc, ?_, ?_⟩
  · rw [hc]; norm_num [sSpeedBuf]
  · rw [(cb_speed_inc_lt cfgArm sSpeedBuf speedIncMsg rfl rfl
      (by norm_num [sSpeedBuf])).1]
    norm_num [sSpeedBuf]

/-- C3 amended: speed adjustment, profile toggling, odometry-reset forwarding,
gripper release/grasp dispatch and pressure stepping are performed on the
asynchronous command-arrival path (joy_control_cb), once per incoming
message; the per-tick controller never changes the rate, slots or pressure
and never issues those arrival-path requests. -/
theorem c3_amended_arrival_path :
    (∀ (cfg : Config) (ops : AngleOps) (s : RobotState) (inp : TickInputs),
      (controller cfg ops s inp).1.current_loop_rate = s.current_loop_rate ∧
      (controller cfg ops s inp).1.loop_rate_coarse = s.loop_rate_coarse ∧
      (controller cfg ops s inp).1.loop_rate_fine = s.loop_rate_fine ∧
      (controller cfg ops s inp).1.current_gripper_pressure
        = s.current_gripper_pressure ∧
      ∀ e ∈ (controller cfg ops s inp).2, tickEventKind e = true) ∧
    (∀ (cfg : Config) (s : RobotState) (m : LocobotJoy),
      m.speed_cmd = Code.inc → m.speed_toggle_cmd = ToggleCode.none →
      s.current_loop_rate < 40 →
      (joy_control_cb cfg s m).1.current_loop_rate = s.current_loop_rate + 1) ∧
    (∀ (cfg : Config) (s : RobotState) (m : LocobotJoy), cfg.armPresent = true →
      m.gripper_cmd = GripperCode.release →
      Event.gripperRelease ∈ (joy_control_cb cfg s m).2) ∧
    (∀ (cfg : Config) (s : RobotState) (m : LocobotJoy),
      m.base_reset_odom_cmd = true → cfg.useBase = true →
      Event.resetOdom ∈ (joy_control_cb cfg s m).2) ∧
    (∀ (cfg : Config) (s : RobotState) (m : LocobotJoy), cfg.armPresent = true →
      m.gripper_pwm_cmd = Code.inc → s.current_gripper_pressure < 1 →
      (joy_control_cb cfg s m).1.current_gripper_pressure
        = s.current_gripper_pressure + gripper_pressure_step) := by
  refine ⟨?_, ?_, ?_, ?_, ?_⟩
  · intro cfg ops s inp
    exact ⟨controller_rate cfg ops s inp, controller_coarse cfg ops s inp,
      controller_fine cfg ops s inp, controller_pressure cfg ops s inp,
      controller_events_tickKind cfg ops s inp⟩
  · intro cfg s m h1 h2 h3
    exact (cb_speed_inc_lt cfg s m h1 h2 h3).1
  · intro cfg s m harm hrel
    rw [cb_events_arm cfg s m harm]
    simp [gripperEvents, hrel]
  · intro cfg s m hodom hbase
    by_cases harm : cfg.armPresent = true
    · rw [cb_events_arm cfg s m harm]
      simp [odomEvents, hodom, hbase]
    · rw [cb_events_noarm cfg s m (by revert harm; cases cfg.armPresent <;> simp)]
      simp [odomEvents, hodom, hbase]
  · intro cfg s m harm h1 h2
    exact cb_pwm_inc_lt cfg s m harm h1 h2

/-- C3 amended witness: concrete instances of the tick-preservation part and
the arrival-path speed increment. -/
theorem c3_amended_arrival_path_witness :
    speedIncMsg.speed_cmd = Code.inc ∧ sSpeedBuf.current_loop_rate < 40 ∧
    (joy_control_cb cfgArm sSpeedBuf speedIncMsg).1.current_loop_rate
      = sSpeedBuf.current_loop_rate + 1 ∧
    (controller cfgArm opsId sSpeedBuf inpZero).1.current_loop_rate
      = sSpeedBuf.current_loop_rate :=
  ⟨rfl, by norm_num [sSpeedBuf],
    c3_amended_arrival_path.2.1 cfgArm sSpeedBuf speedIncMsg rfl rfl
      (by norm_num [sSpeedBuf]),
    (c3_amended_arrival_path.1 cfgArm opsId sSpeedBuf inpZero).1⟩

/-- C5 counterexample: a ccw waist command processed while the commanded waist
angle already equals the upper limit and the actuator rejects the primary
move issues only the primary command; no fallback is issued at all, and in
particular no issued waist target equals the upper limit. -/
theorem c5_counterexample :
    sWaistBuf.joy_msg.waist_cmd = WaistCode.ccw ∧
    inpWaistReject.waistPos = cfgArm.waist_ul ∧
    inpWaistReject.waistSetOk (inpWaistReject.waistPos + waist_step) = false ∧
    waistTargets (controller cfgArm opsId sWaistBuf inpWaistReject).2
      = [inpWaistReject.waistPos + waist_step] ∧
    cfgArm.waist_ul ∉ waistTargets (controller cfgArm opsId sWaistBuf inpWaistReject).2 := by
  have harm : cfgArm.armPresent = true := rfl
  have htg : waistTargets (controller cfgArm opsId sWaistBuf inpWaistReject).2
      = [inpWaistReject.waistPos + waist_step] := by
    rw [controller_waistTargets cfgArm opsId sWaistBuf inpWaistReject harm,
      waistTargets_waistEvents_ccw cfgArm sWaistBuf.joy_msg inpWaistReject rfl]
    simp [inpWaistReject, cfgArm]
  refine ⟨rfl, rfl, rfl, htg, ?_⟩
  rw [htg]
  norm_num [inpWaistReject, cfgArm, waist_step]

/-- C5 amended: when a ccw waist command is processed and the primary move
(current angle plus 0.06) is rejected, a fallback commanding exactly the
upper limit is issued only when the current angle is not already at the
upper limit; at the limit no fallback is issued at all.  Every fallback (any
command after the primary) targets exactly the relevant limit, so no waist
target beyond the limit is ever commanded as fallback.  Symmetrically for cw
and the lower limit. -/
theorem c5_amended_waist_fallback (cfg : Config) (ops : AngleOps) (s : RobotState)
    (inp : TickInputs) (harm : cfg.armPresent = true) :
    (s.joy_msg.waist_cmd = WaistCode.ccw →
      (inp.waistSetOk (inp.waistPos + waist_step) = false →
        (inp.waistPos = cfg.waist_ul →
          waistTargets (controller cfg ops s inp).2 = [inp.waistPos + waist_step]) ∧
        (inp.waistPos ≠ cfg.waist_ul →
          waistTargets (controller cfg ops s inp).2
            = [inp.waistPos + waist_step, cfg.waist_ul])) ∧
      (inp.waistSetOk (inp.waistPos + waist_step) = true →
        waistTargets (controller cfg ops s inp).2 = [inp.waistPos + waist_step]) ∧
      (∀ t ∈ List.drop 1 (waistTargets (controller cfg ops s inp).2),
        t = cfg.waist_ul)) ∧
    (s.joy_msg.waist_cmd = WaistCode.cw →
      (inp.waistSetOk (inp.waistPos - waist_step) = false →
        (inp.waistPos = cfg.waist_ll →
          waistTargets (controller cfg ops s inp).2 = [inp.waistPos - waist_step]) ∧
        (inp.waistPos ≠ cfg.waist_ll →
          waistTargets (controller cfg ops s inp).2
            = [inp.waistPos - waist_step, cfg.waist_ll])) ∧
      (inp.waistSetOk (inp.waistPos - waist_step) = true →
        waistTargets (controller cfg ops s inp).2 = [inp.waistPos - waist_step]) ∧
      (∀ t ∈ List.drop 1 (waistTargets (controller cfg ops s inp).2),
        t = cfg.waist_ll)) := by
  rw [controller_waistTargets cfg ops s inp harm]
  constructor
  · intro hccw
    rw [waistTargets_waistEvents_ccw cfg s.joy_msg inp hccw]
    refine ⟨?_, ?_, ?_⟩
    · intro hrej
      constructor
      · intro heq
        rw [if_neg (by simp [heq])]
      · intro hne
        rw [if_pos ⟨hrej, hne⟩]
    · intro hok
      rw [if_neg (by simp [hok])]
    · intro t ht
      split_ifs at ht with hcond
      · simp at ht; exact ht
      · simp at ht
  · intro hcw
    rw [waistTargets_waistEvents_cw cfg s.joy_msg inp hcw]
    refine ⟨?_, ?_, ?_⟩
    · intro hrej
      constructor
      · intro heq
        rw [if_neg (by simp [heq])]
      · intro hne
        rw [if_pos ⟨hrej, hne⟩]
    · intro hok
      rw [if_neg (by simp [hok])]
    · intro t ht
      split_ifs at ht with hcond
      · simp at ht; exact ht
      · simp at ht

/-- C5 amended witness: concrete rejected ccw command away from the limit,
producing the primary target followed by exactly the upper limit. -/
theorem c5_amended_waist_fallback_witness :
    sWaistBuf.joy_msg.waist_cmd = WaistCode.ccw ∧
    inpWaistRejectMid.waistSetOk (inpWaistRejectMid.waistPos + waist_step) = false ∧
    inpWaistRejectMid.waistPos ≠ cfgArm.waist_ul ∧
    waistTargets (controller cfgArm opsId sWaistBuf inpWaistRejectMid).2
      = [inpWaistRejectMid.waistPos + waist_step, cfgArm.waist_ul] := by
  refine ⟨rfl, ?_, ?_, ?_⟩
  · norm_num [inpWaistRejectMid]
  · norm_num [inpWaistRejectMid, cfgArm]
  · exact (((c5_amended_waist_fallback cfgArm opsId sWaistBuf inpWaistRejectMid rfl).1
      rfl).1 (by norm_num [inpWaistRejectMid])).2
      (by norm_num [inpWaistRejectMid, cfgArm])

/-- C4: in a tick whose only active Cartesian edit is a lateral (ee_y) edit,
for an arm with at least six joints the working pose's y component is left
unchanged when the forward offset is at most 0.3 and changes by exactly the
translation step 0.01 (added for the increment code, subtracted for the
decrement code) when it exceeds 0.3; for an arm with fewer than six joints
the y edit is never applied: the working pose is untouched and the tick
issues no inverse-kinematics request at all. -/
theorem c4_lateral_guard (cfg : Config) (ops : AngleOps) (msg : LocobotJoy) (T : Mat4)
    (hx : msg.ee_x_cmd = Code.none) (hz : msg.ee_z_cmd = Code.none)
    (hr : msg.ee_roll_cmd = Code.none) (hpt : msg.ee_pitch_cmd = Code.none)
    (hy : msg.ee_y_cmd ≠ Code.none) :
    (6 ≤ cfg.numJoints →
      (T 0 3 ≤ 3 / 10 → workingTyb cfg ops msg T 1 3 = T 1 3) ∧
      (3 / 10 < T 0 3 →
        (msg.ee_y_cmd = Code.inc →
          workingTyb cfg ops msg T 1 3 = T 1 3 + translate_step) ∧
        (msg.ee_y_cmd = Code.dec →
          workingTyb cfg ops msg T 1 3 = T 1 3 - translate_step))) ∧
    (cfg.numJoints < 6 →
      workingTyb cfg ops msg T 1 3 = T 1 3 ∧
      ∀ (s : RobotState) (inp : TickInputs), cfg.armPresent = true →
        s.joy_msg = msg → msg.pose_cmd = PoseCode.none →
        msg.waist_cmd = WaistCode.none →
        (controller cfg ops s inp).1 = s ∧
        ikTargets (controller cfg ops s inp).2 = []) := by
  have horL : ¬orientationChanged msg := by
    rintro (h | h)
    · exact h hr
    · exact h hpt
  have hxe : ¬(msg.ee_x_cmd = Code.inc) := by rw [hx]; simp
  have hxd : ¬(msg.ee_x_cmd = Code.dec) := by rw [hx]; simp
  have hze : ¬(msg.ee_z_cmd = Code.inc) := by rw [hz]; simp
  have hzd : ¬(msg.ee_z_cmd = Code.dec) := by rw [hz]; simp
  constructor
  · intro h6
    have hpos : positionChanged cfg msg := Or.inr (Or.inr ⟨h6, hy⟩)
    have hw : workingTyb cfg ops msg T = applyPositionEdits cfg msg T := by
      unfold workingTyb
      rw [if_pos hpos, if_neg horL]
    rw [hw]
    unfold applyPositionEdits
    simp only [if_neg hxe, if_neg hxd, if_neg hze, if_neg hzd]
    constructor
    · intro hle
      rw [if_neg (by rintro ⟨_, _, hgt⟩; linarith),
        if_neg (by rintro ⟨_, _, hgt⟩; linarith)]
    · intro hgt
      constructor
      · intro hyi
        rw [if_pos ⟨hyi, h6, hgt⟩, setEntry_same]
      · intro hyd
        rw [if_neg (by rintro ⟨hyi, _, _⟩; rw [hyd] at hyi; cases hyi),
          if_pos ⟨hyd, h6, hgt⟩, setEntry_same]
  · intro hlt
    have hposn : ¬positionChanged cfg msg := by
      rintro (h | h | ⟨h6, _⟩)
      · exact h hx
      · exact h hz
      · omega
    constructor
    · have hw : workingTyb cfg ops msg T = T := by
        unfold workingTyb
        rw [if_neg hposn, if_neg horL]
      rw [hw]
    · intro s inp harm hs hpose hwaist
      exact controller_no_edit cfg ops s inp harm (by rw [hs]; exact hpose)
        (by rw [hs]; exact hwaist)
        (by rw [hs]; exact fun h => h.elim hposn horL)

/-- C4 witness: concrete six-joint arm, lateral increment edit, identity
working pose (forward offset 0 at most 0.3), y component unchanged. -/
theorem c4_lateral_guard_witness :
    eeYIncMsg.ee_y_cmd ≠ Code.none ∧ 6 ≤ cfgArm.numJoints ∧
    (1 : Mat4) 0 3 ≤ 3 / 10 ∧
    workingTyb cfgArm opsId eeYIncMsg (1 : Mat4) 1 3 = (1 : Mat4) 1 3 := by
  refine ⟨by decide, by norm_num [cfgArm], ?_, ?_⟩
  · rw [Matrix.one_apply_ne (by decide : (0 : Fin 4) ≠ 3)]; norm_num
  · exact ((c4_lateral_guard cfgArm opsId eeYIncMsg 1 rfl rfl rfl rfl (by decide)).1
      (by norm_num [cfgArm])).1
      (by rw [Matrix.one_apply_ne (by decide : (0 : Fin 4) ≠ 3)]; norm_num)

/-- C1 counterexample: for a five-joint arm, a tick whose snapshot carries an
active ee_y edit code issues no inverse-kinematics request at all,
contradicting the claim that every tick with an active Cartesian edit code
issues exactly one request. -/
theorem c1_counterexample :
    sYBuf.joy_msg.ee_y_cmd ≠ Code.none ∧ cfgArm5.armPresent = true ∧
    cfgArm5.numJoints < 6 ∧
    ikTargets (controller cfgArm5 opsId sYBuf inpZero).2 = [] := by
  refine ⟨by decide, rfl, by norm_num [cfgArm5], ?_⟩
  exact (controller_no_edit cfgArm5 opsId sYBuf inpZero rfl rfl rfl (by decide)).2

/-- C1 amended: in a tick without preset-pose or waist commands in which at
least one of ee_x/ee_z/ee_roll/ee_pitch is active, or ee_y is active with at
least six joints, exactly one inverse-kinematics request is issued, for the
composed target T_sy * working_T_yb; on failure the stored T_yb is exactly
unchanged at the end of the tick with no retry, and on success it becomes
exactly the working copy.  Consequently a tick with an ee_x edit and a
failing call leaves T_yb unchanged, and a following tick with the same edit
and a succeeding call commits exactly one translation step (0.01), not two. -/
theorem c1_amended_ik_commit :
    (∀ (cfg : Config) (ops : AngleOps) (s : RobotState) (inp : TickInputs),
      cfg.armPresent = true → s.joy_msg.pose_cmd = PoseCode.none →
      s.joy_msg.waist_cmd = WaistCode.none →
      (s.joy_msg.ee_x_cmd ≠ Code.none ∨ s.joy_msg.ee_z_cmd ≠ Code.none ∨
        s.joy_msg.ee_roll_cmd ≠ Code.none ∨ s.joy_msg.ee_pitch_cmd ≠ Code.none ∨
        (6 ≤ cfg.numJoints ∧ s.joy_msg.ee_y_cmd ≠ Code.none)) →
      ikTargets (controller cfg ops s inp).2
        = [s.T_sy * workingTyb cfg ops s.joy_msg s.T_yb] ∧
      (inp.ikOk = false → (controller cfg ops s inp).1.T_yb = s.T_yb) ∧
      (inp.ikOk = true →
        (controller cfg ops s inp).1.T_yb = workingTyb cfg ops s.joy_msg s.T_yb)) ∧
    (∀ (cfg : Config) (ops : AngleOps) (s : RobotState) (inp1 inp2 : TickInputs),
      cfg.armPresent = true → s.joy_msg = eeXIncMsg →
      inp1.ikOk = false → inp2.ikOk = true →
      (controller cfg ops s inp1).1.T_yb = s.T_yb ∧
      (controller cfg ops (controller cfg ops s inp1).1 inp2).1.T_yb
        = setEntry s.T_yb 0 3 (s.T_yb 0 3 + translate_step)) := by
  constructor
  · intro cfg ops s inp harm hpose hwaist hact
    have hedit : positionChanged cfg s.joy_msg ∨ orientationChanged s.joy_msg := by
      rcases hact with h | h | h | h | h
      · exact Or.inl (Or.inl h)
      · exact Or.inl (Or.inr (Or.inl h))
      · exact Or.inr (Or.inl h)
      · exact Or.inr (Or.inr h)
      · exact Or.inl (Or.inr (Or.inr h))
    obtain ⟨hik, hst⟩ := controller_edit cfg ops s inp harm hpose hwaist hedit
    refine ⟨hik, ?_, ?_⟩
    · intro hfail
      rw [hst, hfail]
      simp
    · intro hsucc
      rw [hst, hsucc]
      simp
  · intro cfg ops s inp1 inp2 harm hm hik1 hik2
    have hpose : s.joy_msg.pose_cmd = PoseCode.none := by rw [hm]; rfl
    have hwaist : s.joy_msg.waist_cmd = WaistCode.none := by rw [hm]; rfl
    have hedit : positionChanged cfg s.joy_msg ∨ orientationChanged s.joy_msg :=
      Or.inl (Or.inl (by rw [hm]; decide))
    have hs1 : (controller cfg ops s inp1).1 = s := by
      rw [(controller_edit cfg ops s inp1 harm hpose hwaist hedit).2, hik1]
      simp
    constructor
    · rw [hs1]
    · rw [hs1, (controller_edit cfg ops s inp2 harm hpose hwaist hedit).2, hik2, hm,
        workingTyb_eeX]
      simp

/-- C1 amended witness: concrete two-tick scenario with an ee_x increment
edit, a failing first call and a succeeding second call, committing exactly
one translation step. -/
theorem c1_amended_ik_commit_witness :
    cfgArm.armPresent = true ∧ sXBuf.joy_msg = eeXIncMsg ∧
    inpIkFail.ikOk = false ∧ inpZero.ikOk = true ∧
    (controller cfgArm opsId sXBuf inpIkFail).1.T_yb = sXBuf.T_yb ∧
    (controller cfgArm opsId (controller cfgArm opsId sXBuf inpIkFail).1 inpZero).1.T_yb
      = setEntry sXBuf.T_yb 0 3 (sXBuf.T_yb 0 3 + translate_step) := by
  obtain ⟨h1, h2⟩ :=
    c1_amended_ik_commit.2 cfgArm opsId sXBuf inpIkFail inpZero rfl rfl rfl rfl
  exact ⟨rfl, rfl, rfl, rfl, h1, h2⟩

end XSLocobot
